import Mathlib

/-!
Verification development for the SailNavSim core engine.

This file gives a shallow embedding, over exact rational arithmetic, of the
parts of the simulator relevant to the checked properties: the per-vessel
physics update (`Boat_advance` and its helpers in `src/Boat.c`), the wind
response tables (`src/BoatWindResponse.c`), the boat registry
(`src/BoatRegistry.c`), and the command pipeline (`Command.c` parsing and the
`handleCommand` dispatcher of `src/main.c`).

External collaborators (the `proteus` geophysical library: weather, ocean,
wave, geo-water, compass and geodesy point queries; the C library's `exp` and
`rand_r`; the Rust advanced-hull solver and group registry) are modelled as an
abstract environment record `Env`, since their implementations live outside
this repository.  All engine code is translated directly from the C source.
-/

namespace SailNavSim

/-- A geographic velocity vector: compass bearing (degrees) and magnitude
(m/s), mirroring `proteus_GeoVec`. -/
structure GeoVec where
  angle : ℚ
  mag : ℚ
deriving DecidableEq, Repr

/-- A geographic position, mirroring `proteus_GeoPos`. -/
structure GeoPos where
  lat : ℚ
  lon : ℚ
deriving DecidableEq, Repr

/-- The weather fields consumed by the vessel physics, mirroring the used part
of `proteus_Weather`: the wind vector and the wind-gust magnitude. -/
structure Weather where
  wind : GeoVec
  windGust : ℚ
deriving DecidableEq, Repr

/-- Ocean data consumed by the vessel physics, mirroring the used part of
`proteus_OceanData`: the current vector and the sea-ice percentage. -/
structure OceanData where
  current : GeoVec
  ice : ℚ
deriving DecidableEq, Repr

/-- Wave data, mirroring the used part of `proteus_WaveData`. -/
structure WaveData where
  waveHeight : ℚ
deriving DecidableEq, Repr

/-- Input record of the advanced-hull solver
(`AdvancedBoatInputData` in `sailnavsim_advancedboats.h`). -/
structure AdvancedBoatInputData where
  windAngle : ℚ
  windSpeed : ℚ
  boatSpeedAhead : ℚ
  boatSpeedAbeam : ℚ
  sailAreaIn : ℚ
deriving DecidableEq, Repr

/-- Output record of the advanced-hull solver
(`AdvancedBoatOutputData` in `sailnavsim_advancedboats.h`). -/
structure AdvancedBoatOutputData where
  boatSpeedAhead : ℚ
  boatSpeedAbeam : ℚ
  heelingAngle : ℚ
deriving DecidableEq, Repr

/-- Vessel state, mirroring `struct Boat` (the current revision used by
`src/Boat.c`; boat flags are kept as a C `int` bitfield). -/
structure Boat where
  pos : GeoPos
  v : GeoVec
  vGround : GeoVec
  desiredCourse : ℚ
  distanceTravelled : ℚ
  damage : ℚ
  boatType : ℤ
  boatFlags : ℕ
  startingFromLandCount : ℤ
  stop : Bool
  sailsDown : Bool
  movingToSea : Bool
  setImmediateDesiredCourse : Bool
  courseMagnetic : Bool
  sailArea : ℚ
  leewaySpeed : ℚ
  heelingAngle : ℚ
deriving DecidableEq, Repr

/-- Flag `BOAT_FLAG_TAKES_DAMAGE` (0x01), from `Boat.h`. -/
def BOAT_FLAG_TAKES_DAMAGE : ℕ := 0x01

/-- Flag `BOAT_FLAG_WAVE_SPEED_EFFECT` (0x02), from `Boat.h`. -/
def BOAT_FLAG_WAVE_SPEED_EFFECT : ℕ := 0x02

/-- Modelled from the spec: flag `BOAT_FLAG_CELESTIAL` (celestial-nav), third
bit of the boat-flags bitfield {takes-damage, wave-speed-effect,
celestial-nav, celestial-wave-effect, damage-uses-apparent-wind,
hidden-in-group}; the revision of `Boat.h` defining it is not in the
snapshot. -/
def BOAT_FLAG_CELESTIAL : ℕ := 0x04

/-- Modelled from the spec: flag `BOAT_FLAG_CELESTIAL_WAVE_EFFECT`, fourth bit
of the boat-flags bitfield. -/
def BOAT_FLAG_CELESTIAL_WAVE_EFFECT : ℕ := 0x08

/-- Modelled from the spec: flag `BOAT_FLAG_DAMAGE_APPARENT_WIND`
(damage-uses-apparent-wind), fifth bit of the boat-flags bitfield. -/
def BOAT_FLAG_DAMAGE_APPARENT_WIND : ℕ := 0x10

/-- The abstract environment: the external collaborators of the engine.
`isWater`, `weather`, `ocean`, `wave`, `magdec`, `vecAdd`, `posAdvance` and
`compassDiff` model the read-only `proteus` point-query and geodesy services;
`exp` models the C library's `exp`; `rand` models `rand_r` (seed in, value and
new seed out); `isBoatTypeAdvanced`, `adjustBoatTypeForAdvanced`,
`damageWindGustThreshold` model the `BoatWindResponse` entry points whose
defining revision is not in the snapshot; `advancedUpdate` models
`sailnavsim_advancedboats_boat_update_v` (`none` encodes a nonzero return
code). -/
structure Env where
  isWater : GeoPos → Bool
  weather : GeoPos → Weather
  ocean : GeoPos → Option OceanData
  wave : GeoPos → Option WaveData
  magdec : GeoPos → ℤ → ℚ
  vecAdd : GeoVec → GeoVec → GeoVec
  posAdvance : GeoPos → GeoVec → GeoPos
  compassDiff : ℚ → ℚ → ℚ
  exp : ℚ → ℚ
  rand : ℕ → ℕ × ℕ
  isBoatTypeAdvanced : ℤ → Bool
  adjustBoatTypeForAdvanced : ℤ → ℤ
  damageWindGustThreshold : ℤ → ℚ
  advancedUpdate : ℤ → AdvancedBoatInputData → Option AdvancedBoatOutputData

/-- Wind response factor table `SAILNAVSIM_CLASSIC_RESPONSE` from BoatWindResponse.c. -/
def SAILNAVSIM_CLASSIC_RESPONSE : List ℚ := [
  -0.10, -0.10, -0.10, -0.10, -0.10, -0.10, -0.10,
  -0.08, -0.08, -0.08, -0.08, -0.08, -0.08, -0.08,
  -0.05, -0.05, -0.05, -0.05, -0.05, -0.05, -0.05,
  0.00, 0.00, 0.00, 0.00, 0.00, 0.00, 0.00,
  0.45, 0.58, 0.55, 0.36, 0.25, 0.17, 0.10,
  0.52, 0.63, 0.63, 0.42, 0.30, 0.21, 0.12,
  0.60, 0.68, 0.68, 0.45, 0.32, 0.22, 0.13,
  0.62, 0.75, 0.69, 0.46, 0.33, 0.22, 0.14,
  0.61, 0.78, 0.70, 0.47, 0.34, 0.23, 0.14,
  0.60, 0.76, 0.71, 0.48, 0.34, 0.23, 0.14,
  0.58, 0.74, 0.72, 0.48, 0.35, 0.23, 0.14,
  0.55, 0.71, 0.72, 0.49, 0.35, 0.23, 0.15,
  0.53, 0.68, 0.70, 0.49, 0.35, 0.24, 0.15,
  0.51, 0.65, 0.68, 0.48, 0.35, 0.24, 0.15,
  0.48, 0.60, 0.61, 0.47, 0.35, 0.25, 0.15,
  0.45, 0.57, 0.58, 0.45, 0.34, 0.25, 0.16,
  0.43, 0.54, 0.54, 0.42, 0.33, 0.24, 0.16,
  0.41, 0.52, 0.52, 0.40, 0.32, 0.23, 0.15,
  0.39, 0.50, 0.50, 0.37, 0.30, 0.20, 0.13,
  0.00, 0.00, 0.00, 0.00, 0.00, 0.00, 0.00,
  0.00]

/-- Wind response factor table `SEASCAPE_18_RESPONSE` from BoatWindResponse.c. -/
def SEASCAPE_18_RESPONSE : List ℚ := [
  -0.10, -0.10, -0.10, -0.10, -0.10, -0.10, -0.10,
  -0.08, -0.08, -0.08, -0.08, -0.08, -0.08, -0.08,
  -0.05, -0.05, -0.05, -0.05, -0.05, -0.05, -0.05,
  0.400, 0.400, 0.250, 0.200, 0.180, 0.139, 0.092,
  0.620, 0.620, 0.595, 0.350, 0.290, 0.226, 0.149,
  0.755, 0.755, 0.668, 0.394, 0.317, 0.246, 0.162,
  0.792, 0.792, 0.688, 0.417, 0.337, 0.261, 0.172,
  0.811, 0.811, 0.698, 0.444, 0.359, 0.278, 0.183,
  0.826, 0.826, 0.712, 0.469, 0.386, 0.300, 0.198,
  0.837, 0.837, 0.730, 0.490, 0.420, 0.325, 0.214,
  0.841, 0.841, 0.733, 0.515, 0.451, 0.350, 0.231,
  0.845, 0.845, 0.736, 0.540, 0.483, 0.374, 0.247,
  0.818, 0.818, 0.721, 0.575, 0.546, 0.423, 0.279,
  0.767, 0.767, 0.692, 0.540, 0.602, 0.467, 0.308,
  0.706, 0.706, 0.652, 0.497, 0.594, 0.461, 0.304,
  0.635, 0.635, 0.602, 0.447, 0.523, 0.405, 0.267,
  0.555, 0.555, 0.525, 0.385, 0.465, 0.360, 0.249,
  0.525, 0.525, 0.475, 0.355, 0.440, 0.341, 0.237,
  0.475, 0.475, 0.445, 0.338, 0.425, 0.329, 0.228,
  0.00, 0.00, 0.00, 0.00, 0.00, 0.00, 0.00,
  0.00]

/-- Wind response factor table `CONTESSA_25_RESPONSE` from BoatWindResponse.c. -/
def CONTESSA_25_RESPONSE : List ℚ := [
  -0.10, -0.10, -0.10, -0.10, -0.10, -0.10, -0.10,
  -0.08, -0.08, -0.08, -0.08, -0.08, -0.08, -0.08,
  -0.05, -0.05, -0.05, -0.05, -0.05, -0.05, -0.05,
  0.100, 0.100, 0.080, 0.050, 0.040, 0.032, 0.022,
  0.580, 0.580, 0.530, 0.350, 0.280, 0.223, 0.152,
  0.693, 0.693, 0.618, 0.382, 0.301, 0.241, 0.164,
  0.727, 0.727, 0.651, 0.391, 0.310, 0.248, 0.169,
  0.743, 0.743, 0.665, 0.398, 0.320, 0.256, 0.175,
  0.753, 0.753, 0.678, 0.404, 0.327, 0.262, 0.179,
  0.757, 0.757, 0.689, 0.409, 0.331, 0.265, 0.181,
  0.760, 0.760, 0.691, 0.418, 0.341, 0.273, 0.186,
  0.763, 0.763, 0.694, 0.428, 0.351, 0.280, 0.192,
  0.735, 0.735, 0.675, 0.425, 0.357, 0.285, 0.195,
  0.692, 0.692, 0.635, 0.416, 0.350, 0.280, 0.192,
  0.639, 0.639, 0.590, 0.403, 0.338, 0.271, 0.184,
  0.578, 0.578, 0.538, 0.383, 0.320, 0.256, 0.175,
  0.490, 0.490, 0.465, 0.363, 0.315, 0.252, 0.173,
  0.440, 0.440, 0.417, 0.348, 0.305, 0.244, 0.167,
  0.400, 0.400, 0.386, 0.353, 0.305, 0.244, 0.167,
  0.00, 0.00, 0.00, 0.00, 0.00, 0.00, 0.00,
  0.00]

/-- Wind response factor table `HANSE_385_RESPONSE` from BoatWindResponse.c. -/
def HANSE_385_RESPONSE : List ℚ := [
  -0.10, -0.10, -0.10, -0.10, -0.10, -0.10, -0.10,
  -0.08, -0.08, -0.08, -0.08, -0.08, -0.08, -0.08,
  -0.05, -0.05, -0.05, -0.05, -0.05, -0.05, -0.05,
  0.200, 0.200, 0.180, 0.150, 0.120, 0.097, 0.067,
  0.660, 0.660, 0.620, 0.400, 0.320, 0.256, 0.175,
  0.835, 0.835, 0.758, 0.472, 0.369, 0.295, 0.201,
  0.910, 0.910, 0.819, 0.489, 0.383, 0.307, 0.209,
  0.960, 0.960, 0.855, 0.503, 0.396, 0.317, 0.217,
  0.985, 0.985, 0.873, 0.515, 0.411, 0.329, 0.224,
  0.985, 0.985, 0.872, 0.523, 0.427, 0.341, 0.234,
  0.945, 0.945, 0.853, 0.531, 0.438, 0.351, 0.239,
  0.905, 0.905, 0.834, 0.539, 0.450, 0.360, 0.245,
  0.873, 0.873, 0.806, 0.534, 0.458, 0.367, 0.250,
  0.812, 0.812, 0.755, 0.521, 0.447, 0.357, 0.244,
  0.741, 0.741, 0.698, 0.503, 0.428, 0.342, 0.234,
  0.660, 0.660, 0.632, 0.478, 0.402, 0.321, 0.219,
  0.575, 0.575, 0.545, 0.450, 0.391, 0.311, 0.213,
  0.500, 0.500, 0.488, 0.428, 0.383, 0.302, 0.206,
  0.440, 0.440, 0.450, 0.425, 0.380, 0.300, 0.204,
  0.00, 0.00, 0.00, 0.00, 0.00, 0.00, 0.00,
  0.00]

/-- Wind response factor table `VOLVO_70_RESPONSE` from BoatWindResponse.c. -/
def VOLVO_70_RESPONSE : List ℚ := [
  -0.10, -0.10, -0.10, -0.10, -0.10, -0.10, -0.10,
  -0.08, -0.08, -0.08, -0.08, -0.08, -0.08, -0.08,
  -0.05, -0.05, -0.05, -0.05, -0.05, -0.05, -0.05,
  0.300, 0.300, 0.333, 0.400, 0.280, 0.217, 0.141,
  1.240, 1.240, 1.100, 0.780, 0.512, 0.396, 0.258,
  1.442, 1.442, 1.330, 0.868, 0.595, 0.461, 0.300,
  1.562, 1.562, 1.396, 0.931, 0.647, 0.500, 0.326,
  1.634, 1.634, 1.459, 1.022, 0.706, 0.547, 0.356,
  1.697, 1.697, 1.520, 1.098, 0.752, 0.581, 0.378,
  1.750, 1.750, 1.580, 1.159, 0.783, 0.605, 0.394,
  1.737, 1.737, 1.570, 1.179, 0.826, 0.639, 0.416,
  1.723, 1.723, 1.560, 1.199, 0.870, 0.673, 0.438,
  1.642, 1.642, 1.474, 1.220, 0.886, 0.685, 0.446,
  1.446, 1.446, 1.338, 1.129, 0.887, 0.686, 0.447,
  1.266, 1.266, 1.192, 1.020, 0.836, 0.647, 0.421,
  1.102, 1.102, 1.037, 0.892, 0.730, 0.565, 0.368,
  0.920, 0.920, 0.927, 0.795, 0.651, 0.504, 0.328,
  0.860, 0.860, 0.880, 0.757, 0.615, 0.476, 0.309,
  0.833, 0.833, 0.862, 0.742, 0.600, 0.464, 0.302,
  0.00, 0.00, 0.00, 0.00, 0.00, 0.00, 0.00,
  0.00]

/-- Wind response factor table `SUPER_MAXI_SCALLYWAG_RESPONSE` from BoatWindResponse.c. -/
def SUPER_MAXI_SCALLYWAG_RESPONSE : List ℚ := [
  -0.10, -0.10, -0.10, -0.10, -0.10, -0.10, -0.10,
  -0.08, -0.08, -0.08, -0.08, -0.08, -0.08, -0.08,
  -0.05, -0.05, -0.05, -0.05, -0.05, -0.05, -0.05,
  0.400, 0.400, 0.450, 0.550, 0.400, 0.310, 0.196,
  1.510, 1.510, 1.400, 0.950, 0.580, 0.449, 0.284,
  1.867, 1.867, 1.628, 1.012, 0.674, 0.521, 0.330,
  2.020, 2.020, 1.712, 1.079, 0.728, 0.563, 0.356,
  2.131, 2.131, 1.812, 1.174, 0.801, 0.620, 0.392,
  2.193, 2.193, 1.884, 1.245, 0.859, 0.665, 0.420,
  2.205, 2.205, 1.929, 1.292, 0.902, 0.698, 0.441,
  2.152, 2.152, 1.884, 1.325, 0.915, 0.708, 0.447,
  2.098, 2.098, 1.839, 1.358, 0.928, 0.718, 0.454,
  2.028, 2.028, 1.822, 1.356, 0.959, 0.742, 0.469,
  1.873, 1.873, 1.709, 1.331, 0.954, 0.738, 0.466,
  1.682, 1.682, 1.563, 1.257, 0.924, 0.715, 0.452,
  1.457, 1.457, 1.384, 1.134, 0.866, 0.670, 0.424,
  1.135, 1.135, 1.130, 0.986, 0.777, 0.617, 0.390,
  0.997, 0.997, 0.990, 0.862, 0.699, 0.555, 0.360,
  0.928, 0.928, 0.900, 0.778, 0.634, 0.518, 0.335,
  0.00, 0.00, 0.00, 0.00, 0.00, 0.00, 0.00,
  0.00]

/-- Wind response factor table `BRIGANTINE_140_RESPONSE` from BoatWindResponse.c. -/
def BRIGANTINE_140_RESPONSE : List ℚ := [
  -0.10, -0.10, -0.10, -0.10, -0.10, -0.10, -0.10,
  -0.08, -0.08, -0.08, -0.08, -0.08, -0.08, -0.08,
  -0.05, -0.05, -0.05, -0.05, -0.05, -0.05, -0.05,
  0.00, 0.00, 0.00, 0.00, 0.00, 0.00, 0.00,
  0.122, 0.122, 0.092, 0.073, 0.056, 0.042, 0.030,
  0.533, 0.533, 0.401, 0.321, 0.273, 0.247, 0.176,
  0.704, 0.704, 0.530, 0.424, 0.367, 0.319, 0.228,
  0.782, 0.782, 0.588, 0.471, 0.394, 0.331, 0.236,
  0.882, 0.882, 0.663, 0.531, 0.433, 0.350, 0.249,
  0.910, 0.910, 0.684, 0.547, 0.442, 0.356, 0.253,
  0.943, 0.943, 0.709, 0.567, 0.448, 0.360, 0.256,
  0.977, 0.977, 0.734, 0.588, 0.468, 0.372, 0.265,
  0.999, 0.999, 0.751, 0.601, 0.477, 0.378, 0.269,
  1.016, 1.016, 0.764, 0.611, 0.485, 0.389, 0.277,
  1.010, 1.010, 0.760, 0.608, 0.491, 0.417, 0.297,
  0.977, 0.977, 0.735, 0.588, 0.474, 0.406, 0.289,
  0.916, 0.916, 0.689, 0.551, 0.444, 0.381, 0.271,
  0.850, 0.850, 0.639, 0.511, 0.403, 0.336, 0.239,
  0.833, 0.833, 0.626, 0.501, 0.390, 0.322, 0.230,
  0.00, 0.00, 0.00, 0.00, 0.00, 0.00, 0.00,
  0.00]

/-- Wind response factor table `MAXI_TRIMARAN_RESPONSE` from BoatWindResponse.c. -/
def MAXI_TRIMARAN_RESPONSE : List ℚ := [
  -0.10, -0.10, -0.10, -0.10, -0.10, -0.10, -0.10,
  -0.08, -0.08, -0.08, -0.08, -0.08, -0.08, -0.08,
  -0.05, -0.05, -0.05, -0.05, -0.05, -0.05, -0.05,
  1.37, 1.33, 1.12, 0.67, 0.50, 0.38, 0.22,
  2.01, 2.02, 1.66, 1.00, 0.76, 0.58, 0.33,
  2.38, 2.41, 1.76, 1.10, 0.84, 0.65, 0.38,
  2.66, 2.70, 1.87, 1.18, 0.91, 0.73, 0.43,
  2.92, 2.85, 1.96, 1.25, 1.01, 0.83, 0.51,
  3.06, 2.96, 2.14, 1.38, 1.14, 0.95, 0.56,
  3.06, 2.96, 2.19, 1.45, 1.26, 1.05, 0.61,
  2.92, 2.85, 2.14, 1.55, 1.34, 1.07, 0.60,
  2.64, 2.67, 2.17, 1.59, 1.35, 1.11, 0.65,
  2.59, 2.59, 2.14, 1.59, 1.37, 1.17, 0.69,
  2.38, 2.34, 2.01, 1.61, 1.39, 1.21, 0.72,
  2.01, 1.98, 1.80, 1.53, 1.40, 1.23, 0.78,
  1.58, 1.58, 1.53, 1.31, 1.31, 1.30, 0.77,
  1.30, 1.26, 1.26, 1.16, 1.11, 1.15, 0.74,
  1.10, 1.13, 1.13, 0.97, 0.92, 0.95, 0.62,
  0.92, 0.98, 0.96, 0.85, 0.81, 0.84, 0.51,
  0.00, 0.00, 0.00, 0.00, 0.00, 0.00, 0.00,
  0.00]

/-- Wind response factor table `IMOCA_60_RESPONSE` from BoatWindResponse.c. -/
def IMOCA_60_RESPONSE : List ℚ := [
  -0.10, -0.10, -0.10, -0.10, -0.10, -0.10, -0.10,
  -0.08, -0.08, -0.08, -0.08, -0.08, -0.08, -0.08,
  -0.05, -0.05, -0.05, -0.05, -0.05, -0.05, -0.05,
  0.565, 1.013, 0.918, 0.464, 0.288, 0.214, 0.141,
  0.900, 1.418, 1.128, 0.605, 0.402, 0.303, 0.202,
  1.135, 1.678, 1.236, 0.671, 0.455, 0.349, 0.236,
  1.304, 1.853, 1.305, 0.727, 0.501, 0.390, 0.266,
  1.425, 1.978, 1.364, 0.787, 0.562, 0.445, 0.306,
  1.525, 2.030, 1.416, 0.864, 0.640, 0.517, 0.358,
  1.475, 2.030, 1.454, 0.959, 0.740, 0.605, 0.422,
  1.430, 1.948, 1.476, 1.049, 0.817, 0.667, 0.465,
  1.385, 1.968, 1.456, 1.141, 0.898, 0.732, 0.511,
  1.335, 1.945, 1.459, 1.235, 0.989, 0.803, 0.561,
  1.235, 1.823, 1.476, 1.225, 1.051, 0.845, 0.591,
  1.045, 1.620, 1.438, 1.274, 1.053, 0.851, 0.595,
  0.905, 1.400, 1.358, 1.289, 1.070, 0.865, 0.604,
  0.710, 1.158, 1.258, 1.164, 0.982, 0.791, 0.553,
  0.665, 1.010, 1.173, 1.059, 0.889, 0.717, 0.501,
  0.520, 0.843, 0.990, 0.956, 0.793, 0.641, 0.448,
  0.00, 0.00, 0.00, 0.00, 0.00, 0.00, 0.00,
  0.00]

/-- Wind response factor table `IMPROVISED_LIFEBOAT_RESPONSE` from BoatWindResponse.c. -/
def IMPROVISED_LIFEBOAT_RESPONSE : List ℚ := [
  -0.10, -0.10, -0.10, -0.10, -0.10, -0.10, -0.10,
  -0.08, -0.08, -0.08, -0.08, -0.08, -0.08, -0.08,
  -0.05, -0.05, -0.05, -0.05, -0.05, -0.05, -0.05,
  0.000, 0.000, 0.000, 0.000, 0.000, 0.000, 0.000,
  0.100, 0.080, 0.040, 0.022, 0.015, 0.012, 0.008,
  0.150, 0.120, 0.070, 0.038, 0.027, 0.021, 0.015,
  0.190, 0.160, 0.110, 0.062, 0.045, 0.036, 0.025,
  0.290, 0.220, 0.140, 0.080, 0.060, 0.048, 0.033,
  0.370, 0.260, 0.170, 0.105, 0.082, 0.064, 0.044,
  0.470, 0.290, 0.190, 0.125, 0.100, 0.080, 0.055,
  0.490, 0.320, 0.210, 0.150, 0.120, 0.098, 0.068,
  0.500, 0.360, 0.240, 0.180, 0.140, 0.120, 0.082,
  0.490, 0.360, 0.260, 0.205, 0.160, 0.140, 0.096,
  0.460, 0.320, 0.260, 0.220, 0.175, 0.148, 0.104,
  0.440, 0.280, 0.240, 0.210, 0.185, 0.157, 0.110,
  0.400, 0.245, 0.210, 0.190, 0.165, 0.150, 0.109,
  0.335, 0.205, 0.190, 0.175, 0.152, 0.142, 0.107,
  0.260, 0.175, 0.165, 0.155, 0.142, 0.135, 0.106,
  0.190, 0.145, 0.145, 0.138, 0.129, 0.126, 0.105,
  0.00, 0.00, 0.00, 0.00, 0.00, 0.00, 0.00,
  0.00]

/-- Wind response factor table `VOLVO_65_RESPONSE` from BoatWindResponse.c. -/
def VOLVO_65_RESPONSE : List ℚ := [
  -0.10, -0.10, -0.10, -0.10, -0.10, -0.10, -0.10,
  -0.08, -0.08, -0.08, -0.08, -0.08, -0.08, -0.08,
  -0.05, -0.05, -0.05, -0.05, -0.05, -0.05, -0.05,
  0.000, 0.000, 0.000, 0.000, 0.000, 0.000, 0.000,
  0.867, 0.867, 1.000, 0.567, 0.485, 0.323, 0.217,
  1.333, 1.333, 1.250, 0.693, 0.570, 0.417, 0.292,
  1.667, 1.667, 1.333, 0.753, 0.635, 0.487, 0.341,
  1.700, 1.700, 1.383, 0.860, 0.725, 0.567, 0.397,
  1.800, 1.800, 1.500, 0.943, 0.825, 0.650, 0.455,
  1.833, 1.833, 1.533, 1.040, 0.890, 0.733, 0.513,
  1.533, 1.533, 1.500, 1.093, 0.950, 0.783, 0.548,
  1.233, 1.233, 1.367, 1.100, 0.980, 0.800, 0.560,
  0.933, 0.933, 1.150, 1.093, 0.955, 0.817, 0.580,
  0.767, 0.767, 0.933, 1.043, 0.960, 0.833, 0.600,
  0.700, 0.700, 0.717, 0.933, 0.905, 0.883, 0.645,
  0.567, 0.567, 0.500, 0.813, 0.833, 0.893, 0.661,
  0.300, 0.300, 0.417, 0.700, 0.725, 0.833, 0.608,
  0.267, 0.267, 0.367, 0.640, 0.660, 0.723, 0.521,
  0.250, 0.250, 0.300, 0.600, 0.640, 0.620, 0.440,
  0.00, 0.00, 0.00, 0.00, 0.00, 0.00, 0.00,
  0.00]

/-- The `WIND_RESPONSES` table array from `BoatWindResponse.c` (index =
boat type). -/
def WIND_RESPONSES : List (List ℚ) := [
  SAILNAVSIM_CLASSIC_RESPONSE,
  SEASCAPE_18_RESPONSE,
  CONTESSA_25_RESPONSE,
  HANSE_385_RESPONSE,
  VOLVO_70_RESPONSE,
  SUPER_MAXI_SCALLYWAG_RESPONSE,
  BRIGANTINE_140_RESPONSE,
  MAXI_TRIMARAN_RESPONSE,
  IMOCA_60_RESPONSE,
  IMPROVISED_LIFEBOAT_RESPONSE,
  VOLVO_65_RESPONSE]

/-- The `COURSE_CHANGE_RATES` table from `BoatWindResponse.c`. -/
def COURSE_CHANGE_RATES : List ℚ :=
  [3.0, 6.0, 3.0, 2.75, 2.25, 2.25, 1.25, 3.10, 2.25, 2.5, 2.25]

/-- The `BOAT_INERTIAS` table from `BoatWindResponse.c`. -/
def BOAT_INERTIAS : List ℚ :=
  [20.0, 12.0, 20.0, 22.5, 30.0, 32.0, 45.0, 25.0, 28.0, 25.0, 30.0]

/-- The `WAVE_EFFECT_RESISTANCES` table from `BoatWindResponse.c`. -/
def WAVE_EFFECT_RESISTANCES : List ℚ :=
  [75.0, 60.0, 100.0, 125.0, 175.0, 200.0, 200.0, 250.0, 160.0, 50.0, 175.0]

/-- `BOAT_TYPE_MAX` from `BoatWindResponse.c`. -/
def BOAT_TYPE_MAX : ℤ := 10

/-- Truncation of a rational toward zero, the semantics of C's
`(int)` cast applied to a `double`. -/
def ctrunc (x : ℚ) : ℤ := if x < 0 then -⌊-x⌋ else ⌊x⌋

/-- The loop `while (angleFromWind > 180.0) angleFromWind -= 180.0;` at the
top of `BoatWindResponse_getBoatSpeed` (note: it subtracts 180, not 360). -/
def reduceAngle180 (x : ℚ) : ℚ :=
  if h : 180 < x then reduceAngle180 (x - 180) else x
termination_by (⌈x / 180⌉).toNat
decreasing_by
  have h1 : (1 : ℚ) < x / 180 := by
    rw [lt_div_iff₀ (by norm_num : (0:ℚ) < 180)]; linarith
  have h2 : (1 : ℤ) < ⌈x / 180⌉ := Int.lt_ceil.2 (by exact_mod_cast h1)
  have h3 : ⌈(x - 180) / 180⌉ = ⌈x / 180⌉ - 1 := by
    have e : (x - 180) / 180 = x / 180 - ((1 : ℤ) : ℚ) := by push_cast; ring
    rw [e, Int.ceil_sub_int]
  omega

/-- `BoatWindResponse_getBoatSpeed` from `BoatWindResponse.c`: bilinear
interpolation in the wind response table of the given boat type.  The C code
returns 0 for `boatType > BOAT_TYPE_MAX`; a negative boat type would index
out of bounds (undefined behaviour, excluded by command validation) and is
modelled as 0 as well. -/
def BoatWindResponse_getBoatSpeed (windSpd angleFromWind : ℚ) (boatType : ℤ) : ℚ :=
  if BOAT_TYPE_MAX < boatType then 0
  else if boatType < 0 then 0
  else
    let angle := |reduceAngle180 angleFromWind|
    let iAngle : ℤ := ctrunc angle / 10
    let angleFrac := (angle - (iAngle * 10 : ℤ)) / 10
    let iWindSpd : ℤ := ctrunc windSpd
    let (iSpd, spdFrac) : ℤ × ℚ :=
      if iWindSpd ≥ 24 then (6, 0)
      else if iWindSpd ≥ 16 then (5, (windSpd - 16) / 8)
      else if iWindSpd ≥ 12 then (4, (windSpd - 12) / 4)
      else if iWindSpd ≥ 8 then (3, (windSpd - 8) / 4)
      else if iWindSpd ≥ 4 then (2, (windSpd - 4) / 4)
      else if iWindSpd ≥ 2 then (1, (windSpd - 2) / 2)
      else if iWindSpd ≥ 1 then (0, windSpd - 1)
      else (0, 0)
    let base := iAngle * 7 + iSpd
    let response := WIND_RESPONSES.getD boatType.toNat []
    let r0 := response.getD base.toNat 0 * (1 - spdFrac) +
      response.getD (base + 1).toNat 0 * spdFrac
    let r1 := response.getD (base + 7).toNat 0 * (1 - spdFrac) +
      response.getD (base + 8).toNat 0 * spdFrac
    windSpd * ((r0 * (1 - angleFrac)) + (r1 * angleFrac))

/-- `BoatWindResponse_getCourseChangeRate`: 0 for unmodeled types (negative
types are undefined behaviour in C, excluded by command validation, modelled
as 0). -/
def BoatWindResponse_getCourseChangeRate (boatType : ℤ) : ℚ :=
  if BOAT_TYPE_MAX < boatType then 0
  else if boatType < 0 then 0
  else COURSE_CHANGE_RATES.getD boatType.toNat 0

/-- `BoatWindResponse_getSpeedChangeResponse`: very large inertia for
unmodeled types. -/
def BoatWindResponse_getSpeedChangeResponse (boatType : ℤ) : ℚ :=
  if BOAT_TYPE_MAX < boatType then 10 ^ 30
  else if boatType < 0 then 10 ^ 30
  else BOAT_INERTIAS.getD boatType.toNat 0

/-- `BoatWindResponse_getWaveEffectResistance`: very low resistance for
unmodeled types. -/
def BoatWindResponse_getWaveEffectResistance (boatType : ℤ) : ℚ :=
  if BOAT_TYPE_MAX < boatType then 0.001
  else if boatType < 0 then 0.001
  else WAVE_EFFECT_RESISTANCES.getD boatType.toNat 0



/-- `FORBIDDEN_LAT` (0.0001) from `Boat.c`. -/
def FORBIDDEN_LAT : ℚ := 0.0001

/-- `STARTING_FROM_LAND_COUNTDOWN` (10) from `Boat.c`. -/
def STARTING_FROM_LAND_COUNTDOWN : ℤ := 10

/-- `KTS_IN_MPS` (1.943844) from `Boat.c`. -/
def KTS_IN_MPS : ℚ := 1.943844

/-- `DAMAGE_DECREASE_THRESHOLD` (25 knots in m/s) from `Boat.c`. -/
def DAMAGE_DECREASE_THRESHOLD : ℚ := 25 / KTS_IN_MPS

/-- `DAMAGE_TAKE_FACTOR` from `Boat.c`. -/
def DAMAGE_TAKE_FACTOR : ℚ := 0.25 * KTS_IN_MPS * KTS_IN_MPS / 3600

/-- `DAMAGE_REPAIR_FACTOR` from `Boat.c`. -/
def DAMAGE_REPAIR_FACTOR : ℚ := 0.25 * KTS_IN_MPS / 3600

/-- `Boat_new` from `Boat.c` (the successful-allocation result). -/
def Boat_new (lat lon : ℚ) (boatType : ℤ) (boatFlags : ℕ) : Boat :=
  { pos := ⟨lat, if lon < 180 then lon else lon - 360⟩
    v := ⟨0, 0⟩
    vGround := ⟨0, 0⟩
    desiredCourse := 0
    distanceTravelled := 0
    damage := 0
    boatType := boatType
    boatFlags := boatFlags
    startingFromLandCount := 0
    stop := true
    sailsDown := false
    movingToSea := false
    setImmediateDesiredCourse := true
    courseMagnetic := boatFlags &&& BOAT_FLAG_CELESTIAL != 0
    sailArea := 0
    leewaySpeed := 0
    heelingAngle := 0 }

/-- `stopBoat` from `Boat.c`. -/
def stopBoat (b : Boat) : Boat :=
  { b with
    stop := true
    v := ⟨b.v.angle, 0⟩
    leewaySpeed := 0
    heelingAngle := 0
    vGround := ⟨b.v.angle, 0⟩ }

/-- `convertMag2True` from `Boat.c`. -/
def convertMag2True (env : Env) (pos : GeoPos) (t : ℤ) (compassMag : ℚ) : ℚ :=
  let compassTrue := compassMag + env.magdec pos t
  if compassTrue < 0 then compassTrue + 360
  else if compassTrue > 360 then compassTrue - 360
  else compassTrue

/-- `getDesiredCourseTrue` from `Boat.c`. -/
def getDesiredCourseTrue (env : Env) (b : Boat) (t : ℤ) : ℚ :=
  if b.courseMagnetic then convertMag2True env b.pos t b.desiredCourse
  else b.desiredCourse

/-- `oceanIceSpeedAdjustmentFactor` from `Boat.c`; the `valid` flag and data
pointer are fused into an `Option`. -/
def oceanIceSpeedAdjustmentFactor (od : Option OceanData) : ℚ :=
  match od with
  | some o => 1 - o.ice / 100
  | none => 1

/-- `boatDamageSpeedAdjustmentFactor` from `Boat.c`. -/
def boatDamageSpeedAdjustmentFactor (b : Boat) : ℚ :=
  if b.boatFlags &&& BOAT_FLAG_TAKES_DAMAGE != 0 then 1 - b.damage * 0.01
  else 1

/-- `waveSpeedAdjustmentFactor` from `Boat.c` (`env.exp` models the C
library's `exp`). -/
def waveSpeedAdjustmentFactor (env : Env) (b : Boat) (wd : Option WaveData) : ℚ :=
  match wd with
  | some w =>
      if b.boatFlags &&& BOAT_FLAG_WAVE_SPEED_EFFECT != 0 then
        1 / env.exp (w.waveHeight * w.waveHeight /
          BoatWindResponse_getWaveEffectResistance b.boatType)
      else 1
  | none => 1

/-- `WxUtils_adjustWindForCurrent` from `WxUtils.c`: adds the ocean-current
vector to both the wind vector and the gust vector, storing the new gust
magnitude. -/
def WxUtils_adjustWindForCurrent (env : Env) (wx : Weather) (current : GeoVec) : Weather :=
  let windGust : GeoVec := ⟨wx.wind.angle, wx.windGust⟩
  let wind := env.vecAdd wx.wind current
  let windGust := env.vecAdd windGust current
  { wind := wind, windGust := windGust.mag }

/-- The repair-or-take tail of `updateDamage` in `Boat.c`, applied to the
gust magnitude after the stopped-boat and apparent-wind substitutions. -/
def updateDamageTail (b : Boat) (windGust damageTakeThreshold : ℚ)
    (takeDamage : Bool) : Boat :=
  if windGust < DAMAGE_DECREASE_THRESHOLD then
    if 0 < b.damage then
      -- Repair damage.
      let d := b.damage - (DAMAGE_DECREASE_THRESHOLD - windGust) * DAMAGE_REPAIR_FACTOR
      { b with damage := if d < 0 then 0 else d }
    else b
  else if damageTakeThreshold < windGust ∧ takeDamage = true ∧ b.damage < 100 then
    -- Take damage.
    let threshDiff := windGust - damageTakeThreshold
    let d := b.damage + (100 - b.damage) * (threshDiff * threshDiff * DAMAGE_TAKE_FACTOR * 0.01)
    { b with damage := if 100 < d then 100 else d }
  else b

/-- `updateDamage` from `Boat.c`.  Only the `damage` field changes. -/
def updateDamage (env : Env) (b : Boat) (windGust windAngle : ℚ)
    (takeDamage : Bool) : Boat :=
  if b.boatFlags &&& BOAT_FLAG_TAKES_DAMAGE == 0 then b
  else
    -- Caller providing windGust < 0.0 indicates "stopped" boat.
    let (windGust, windAngle) :=
      if windGust < 0 then
        let wx := env.weather b.pos
        (wx.windGust, wx.wind.angle)
      else (windGust, windAngle)
    let windGust :=
      if b.boatFlags &&& BOAT_FLAG_DAMAGE_APPARENT_WIND != 0 then
        -- Use apparent wind instead of true wind for damage calculations.
        let appWindGust := env.vecAdd ⟨windAngle, windGust⟩ b.v
        let appWindGust :=
          if b.leewaySpeed ≠ 0 then
            let lwAngle := b.v.angle + 90
            let lwAngle := if lwAngle ≥ 360 then lwAngle - 360 else lwAngle
            env.vecAdd appWindGust ⟨lwAngle, b.leewaySpeed⟩
          else appWindGust
        appWindGust.mag
      else windGust
    let damageTakeThreshold := env.damageWindGustThreshold b.boatType
    updateDamageTail b windGust damageTakeThreshold takeDamage

/-- The single conditional normalization step at the end of `updateCourse`
(`if (b->v.angle < 0.0) ... else if (b->v.angle >= 360.0) ...`). -/
def courseNormalize (angle : ℚ) : ℚ :=
  if angle < 0 then angle + 360
  else if angle ≥ 360 then angle - 360
  else angle

/-- `updateCourse` from `Boat.c`; the global `rand_r` seed is threaded
explicitly. -/
def updateCourse (env : Env) (t : ℤ) (b : Boat) (seed : ℕ) : Boat × ℕ :=
  let desiredCourseTrue := getDesiredCourseTrue env b t
  let courseDiff := env.compassDiff b.v.angle desiredCourseTrue
  let courseChangeRate := BoatWindResponse_getCourseChangeRate b.boatType
  if |courseDiff| ≤ courseChangeRate then
    -- Desired course is close enough to current course.
    ({ b with v := ⟨desiredCourseTrue, b.v.mag⟩ }, seed)
  else
    let (angle, seed) :=
      if courseDiff < 0 ∧ -179 ≤ courseDiff then (b.v.angle - courseChangeRate, seed)
      else if 0 < courseDiff ∧ courseDiff ≤ 179 then (b.v.angle + courseChangeRate, seed)
      else
        -- Within a degree of being opposite: choose a direction at random.
        let (rv, seed') := env.rand seed
        if rv % 2 == 0 then (b.v.angle - courseChangeRate, seed')
        else (b.v.angle + courseChangeRate, seed')
    ({ b with v := ⟨courseNormalize angle, b.v.mag⟩ }, seed)

/-- `updateVelocity` from `Boat.c`. -/
def updateVelocity (env : Env) (b : Boat) (wx : Weather)
    (od : Option OceanData) (wd : Option WaveData) : Boat :=
  let windVec := wx.wind
  let angleFromWind := env.compassDiff windVec.angle b.v.angle
  let speedAdjustmentFactor :=
    oceanIceSpeedAdjustmentFactor od * waveSpeedAdjustmentFactor env b wd
  if env.isBoatTypeAdvanced b.boatType then
    -- Advanced boat type
    let speedAdjustmentFactor :=
      if 0 < b.sailArea then speedAdjustmentFactor * boatDamageSpeedAdjustmentFactor b
      else speedAdjustmentFactor
    let safModified := if speedAdjustmentFactor < 0.01 then 0.01 else speedAdjustmentFactor
    let inputData : AdvancedBoatInputData :=
      { windAngle := -angleFromWind
        windSpeed := windVec.mag
        boatSpeedAhead := b.v.mag / safModified
        boatSpeedAbeam := b.leewaySpeed / safModified
        sailAreaIn := b.sailArea }
    match env.advancedUpdate (env.adjustBoatTypeForAdvanced b.boatType) inputData with
    | some outputData =>
        { b with
          v := ⟨b.v.angle, outputData.boatSpeedAhead * safModified⟩
          leewaySpeed := outputData.boatSpeedAbeam * safModified
          heelingAngle := outputData.heelingAngle }
    | none =>
        { b with v := ⟨b.v.angle, 0⟩, leewaySpeed := 0, heelingAngle := 0 }
  else
    -- Basic boat type
    let spd := BoatWindResponse_getBoatSpeed windVec.mag angleFromWind b.boatType *
      speedAdjustmentFactor * boatDamageSpeedAdjustmentFactor b
    let speedChangeResponse := BoatWindResponse_getSpeedChangeResponse b.boatType
    { b with v := ⟨b.v.angle, (speedChangeResponse * b.v.mag + spd) / (speedChangeResponse + 1)⟩ }

/-- One check-and-step of the `Boat_isHeadingTowardWater` loop, with the
number of remaining iterations as fuel (the C loop runs `d = 0, 10, ..., 110`,
i.e. `(MOVE_TO_WATER_DISTANCE + 10) / 10 + 1 = 12` iterations). -/
def isHeadingTowardWaterAux (env : Env) (v : GeoVec) : GeoPos → ℕ → Bool
  | _, 0 => false
  | pos, n + 1 =>
      if env.isWater pos then true
      else isHeadingTowardWaterAux env v (env.posAdvance pos v) n

/-- `Boat_isHeadingTowardWater` from `Boat.c`: samples at 10 m steps along
the desired true course up to `MOVE_TO_WATER_DISTANCE + 10 = 110` m. -/
def Boat_isHeadingTowardWater (env : Env) (t : ℤ) (b : Boat) : Bool :=
  isHeadingTowardWaterAux env ⟨getDesiredCourseTrue env b t, 10⟩ b.pos 12

/-- The ground-vector-and-move part of the `Boat_advance` main path in
`Boat.c`: compute the "over ground" vector from the water vector, ocean
current (launch-damped) and leeway, reflect a negative magnitude, decrement
the land countdown, advance the position and accumulate distance. -/
def Boat_advanceMove (env : Env) (od : Option OceanData) (b : Boat) : Boat :=
  let b := { b with vGround := b.v }
  let b : Boat :=
    match od with
    | some o =>
        let cur : GeoVec :=
          if 0 < b.startingFromLandCount then
            ⟨o.current.angle, o.current.mag *
              (((STARTING_FROM_LAND_COUNTDOWN - b.startingFromLandCount : ℤ) : ℚ) /
                (STARTING_FROM_LAND_COUNTDOWN : ℚ))⟩
          else o.current
        { b with vGround := env.vecAdd b.vGround cur }
    | none => b
  let b : Boat :=
    if b.leewaySpeed ≠ 0 then
      let lwAngle := b.v.angle + 90
      let lwAngle := if lwAngle ≥ 360 then lwAngle - 360 else lwAngle
      { b with vGround := env.vecAdd b.vGround ⟨lwAngle, b.leewaySpeed⟩ }
    else b
  -- Ensure that the "over ground" vector has positive magnitude.
  let b : Boat :=
    if b.vGround.mag < 0 then
      let a := b.vGround.angle + 180
      let a := if a ≥ 360 then a - 360 else a
      { b with vGround := ⟨a, -b.vGround.mag⟩ }
    else b
  let b :=
    if 0 < b.startingFromLandCount then
      { b with startingFromLandCount := b.startingFromLandCount - 1 }
    else b
  -- Advance boat by "over ground" vector and accumulate distance.
  let b := { b with pos := env.posAdvance b.pos b.vGround }
  { b with distanceTravelled := b.distanceTravelled + b.vGround.mag }

/-- The landing check ending the `Boat_advance` main path: after the move,
if the new position is not on water, stop the vessel and arm the
starting-from-land countdown. -/
def Boat_advanceGround (env : Env) (od : Option OceanData) (b : Boat) : Boat :=
  let b := Boat_advanceMove env od b
  if env.isWater b.pos = false then
    { stopBoat b with startingFromLandCount := STARTING_FROM_LAND_COUNTDOWN }
  else b

/-- The weather-fetch, damage, course and velocity section of the
`Boat_advance` main path in `Boat.c` (everything between the early returns
and the "over ground" computation). -/
def Boat_advanceVelocity (env : Env) (t : ℤ) (b : Boat) (seed : ℕ) : Boat × ℕ :=
  let wx := env.weather b.pos
  let od := env.ocean b.pos
  let wx :=
    match od with
    | some o => WxUtils_adjustWindForCurrent env wx o.current
    | none => wx
  let wd := env.wave b.pos
  let advancedBoatType := env.isBoatTypeAdvanced b.boatType
  if advancedBoatType = false ∧ b.sailsDown = true then
    -- Sails down for basic/non-advanced boat types
    let windVec := wx.wind
    let a := windVec.angle + 180
    let a := if a ≥ 360 then a - 360 else a
    let b := { b with v := ⟨a, b.v.mag⟩ }
    -- With sails down we do not take any additional damage.
    let b := updateDamage env b wx.windGust windVec.angle false
    ({ b with v := ⟨b.v.angle, windVec.mag * 0.1 *
        oceanIceSpeedAdjustmentFactor od *
        waveSpeedAdjustmentFactor env b wd⟩ }, seed)
  else
    -- For advanced boat types, only take damage if some sail is up.
    let takeDamage : Bool := !advancedBoatType || decide ((0 : ℚ) < b.sailArea)
    let b := updateDamage env b wx.windGust wx.wind.angle takeDamage
    let (b, seed) := updateCourse env t b seed
    (updateVelocity env b wx od wd, seed)

/-- The main-tick tail of `Boat_advance` (everything after the stopped, polar
and moving-to-sea early returns in `Boat.c`): the damage/course/velocity
section followed by the ground-vector-and-move section.  The ocean data is a
pure point query, so fetching it in both sections matches the C code's single
fetch. -/
def Boat_advanceMain (env : Env) (t : ℤ) (b : Boat) (seed : ℕ) : Boat × ℕ :=
  (Boat_advanceGround env (env.ocean b.pos) (Boat_advanceVelocity env t b seed).1,
    (Boat_advanceVelocity env t b seed).2)

/-- `Boat_advance` from `Boat.c`; `t` is the wall-clock time, and the global
`rand_r` seed is threaded explicitly. -/
def Boat_advance (env : Env) (t : ℤ) (b : Boat) (seed : ℕ) : Boat × ℕ :=
  if b.stop then
    -- Stopped, so nowhere to go; possibly fix some boat damage.
    (if 0 < b.damage then updateDamage env b (-1) 0 false else b, seed)
  else if b.pos.lat ≥ 90 - FORBIDDEN_LAT ∨ b.pos.lat ≤ -90 + FORBIDDEN_LAT then
    -- Very close to one of the poles, so stop.
    (stopBoat b, seed)
  else if b.movingToSea then
    if env.isWater b.pos then
      -- We're on water, so proceed normally.
      let b := { b with movingToSea := false }
      let b :=
        if b.setImmediateDesiredCourse then
          { b with v := ⟨getDesiredCourseTrue env b t, b.v.mag⟩
                   setImmediateDesiredCourse := false }
        else b
      Boat_advanceMain env t b seed
    else if Boat_isHeadingTowardWater env t b then
      -- Water ahead, so proceed at fixed speed toward it.
      let b := { b with v := ⟨getDesiredCourseTrue env b t, 0.5⟩, leewaySpeed := 0 }
      let b := { b with vGround := b.v }
      ({ b with pos := env.posAdvance b.pos b.vGround }, seed)
    else
      -- No water ahead, so stop!
      (stopBoat b, seed)
  else
    Boat_advanceMain env t b seed

/-- `getRandDouble` from `Boat.c`: a pseudo-random rational in
`[-scale, scale]`, consuming one `rand_r` draw. -/
def getRandDouble (env : Env) (seed : ℕ) (scale : ℚ) : ℚ × ℕ :=
  let (rv, seed') := env.rand seed
  (((((rv % 257 : ℕ) : ℤ) - 128 : ℤ) : ℚ) / 128 * scale, seed')



/-- The first wrap loop of `Boat_getWaveAdjustedCelestialAzAlt`:
`while (newAz < 0.0) newAz += 360.0;`. -/
def wrapAzUp (x : ℚ) : ℚ :=
  if h : x < 0 then wrapAzUp (x + 360) else x
termination_by (⌈-x / 360⌉).toNat
decreasing_by
  have h1 : (0 : ℚ) < -x / 360 := div_pos (by linarith) (by norm_num)
  have h2 : (0 : ℤ) < ⌈-x / 360⌉ := Int.lt_ceil.2 (by exact_mod_cast h1)
  have h3 : ⌈-(x + 360) / 360⌉ = ⌈-x / 360⌉ - 1 := by
    have e : -(x + 360) / 360 = -x / 360 - ((1 : ℤ) : ℚ) := by push_cast; ring
    rw [e, Int.ceil_sub_int]
  omega

/-- The second wrap loop of `Boat_getWaveAdjustedCelestialAzAlt`:
`while (newAz >= 360.0) newAz -= 360.0;`. -/
def wrapAzDown (x : ℚ) : ℚ :=
  if h : x ≥ 360 then wrapAzDown (x - 360) else x
termination_by (⌊x / 360⌋).toNat
decreasing_by
  have h1 : (1 : ℚ) ≤ x / 360 := by
    rw [le_div_iff₀ (by norm_num : (0:ℚ) < 360)]; linarith
  have h2 : (1 : ℤ) ≤ ⌊x / 360⌋ := Int.le_floor.2 (by exact_mod_cast h1)
  have h3 : ⌊(x - 360) / 360⌋ = ⌊x / 360⌋ - 1 := by
    have e : (x - 360) / 360 = x / 360 - ((1 : ℤ) : ℚ) := by push_cast; ring
    rw [e, Int.floor_sub_int]
  omega

/-- `Boat_getWaveAdjustedCelestialAzAlt` from `Boat.c`.  The C function takes
`az`/`alt` in-out pointers and returns a success flag; here `none` models the
`false` (sight dropped) return and `some (az, alt)` the `true` return with the
final pointer contents.  The `rand_r` seed is threaded explicitly. -/
def Boat_getWaveAdjustedCelestialAzAlt (env : Env) (b : Boat) (az alt : ℚ)
    (seed : ℕ) : Option (ℚ × ℚ) × ℕ :=
  if b.boatFlags &&& BOAT_FLAG_CELESTIAL_WAVE_EFFECT == 0 then
    -- No adjustments to be made.
    (some (az, alt), seed)
  else
    match env.wave b.pos with
    | none =>
        -- No wave data available, so no adjustments to be made.
        (some (az, alt), seed)
    | some wd =>
        let wh := wd.waveHeight
        let wer := BoatWindResponse_getWaveEffectResistance b.boatType
        let (r1, seed) := getRandDouble env seed wh
        let (r2, seed) := getRandDouble env seed wh
        let newAlt := alt + 1.666667 * r1 * r2 / wer
        if newAlt < 0 then
          -- Adjusted altitude is below horizon.
          (none, seed)
        else
          let newAlt := if newAlt > 90 then 90 - (newAlt - 90) else newAlt
          let (r3, seed) := getRandDouble env seed wh
          let (r4, seed) := getRandDouble env seed wh
          let newAz := wrapAzDown (wrapAzUp (az + 100 * r3 * r4 / wer))
          (some (newAz, newAlt), seed)

/-- A registry entry, mirroring `struct BoatEntry` (name, optional group,
owned vessel); the intrusive `next`/`prev` links are represented by the
position in the registry's entry list. -/
structure RegEntry where
  name : String
  group : Option String
  boat : Boat
deriving DecidableEq, Repr

/-- Modelled from the spec: the group index maintained by the Rust library
(`sailnavsim_rustlib_boatregistry_*`, source not in the snapshot): for each
group name, the ordered list of member boat names with their alternate
display names. -/
def GroupIndex : Type := List (String × List (String × Option String))

instance : DecidableEq GroupIndex := by unfold GroupIndex; infer_instance

/-- The boat registry state: the insertion-ordered entry list (`_first` ..
`_last` in `BoatRegistry.c`), the group index, and the entry count
(`_boatCount`).  The hash-bucket array of `BoatRegistry.c` is an
expected-O(1) index over the same entries (the spec allows any such backing
structure); name lookup is modelled as first-match search of the entry
list. -/
structure Registry where
  entries : List RegEntry
  groups : GroupIndex
  count : ℕ
deriving DecidableEq

/-- The empty registry (initial state). -/
def Registry.empty : Registry := ⟨[], ([] : List (String × List (String × Option String))), 0⟩

/-- `findBoatEntry` from `BoatRegistry.c`: the entry with the given name, if
present (the C code walks the hash bucket of the name; names are unique, so
this is first-match lookup). -/
def findBoatEntry (r : Registry) (name : String) : Option RegEntry :=
  r.entries.find? (fun e => e.name == name)

/-- Result codes of `BoatRegistry_add` (`BoatRegistry_OK` /
`BoatRegistry_EXISTS` / `BoatRegistry_FAILED`). -/
inductive AddResult where
  | ok
  | alreadyExists
  | failed
deriving DecidableEq, Repr

/-- The outcome of each internal allocation performed by `BoatRegistry_add`
(`malloc`/`strdup` successes) and the return code of the Rust group-add call;
`BoatRegistry_add` is deterministic given this plan. -/
structure AllocPlan where
  entryOk : Bool
  nameOk : Bool
  groupOk : Bool
  entryEntryOk : Bool
  groupAddRc : ℤ
  boatNewOk : Bool
deriving DecidableEq, Repr

/-- The all-allocations-succeed plan. -/
def AllocPlan.allOk : AllocPlan :=
  ⟨true, true, true, true, 0, true⟩

/-- Modelled from the spec: `sailnavsim_rustlib_boatregistry_group_add_boat`
(successful case) appends the member to the group's ordered list, creating
the group if absent. -/
def groupAddBoat : GroupIndex → String → String → Option String → GroupIndex
  | [], g, n, a => [(g, [(n, a)])]
  | (g', ms) :: rest, g, n, a =>
      if g' == g then (g', ms ++ [(n, a)]) :: rest
      else (g', ms) :: groupAddBoat rest g n a

/-- Modelled from the spec: `sailnavsim_rustlib_boatregistry_group_remove_boat`
removes the member from the group's list. -/
def groupRemoveBoat (gi : GroupIndex) (g n : String) : GroupIndex :=
  (gi : List (String × List (String × Option String))).map
    (fun p => if p.1 == g then (p.1, p.2.filter (fun m => m.1 ≠ n)) else p)

/-- `BoatRegistry_add` from `BoatRegistry.c`, with allocation outcomes given
by `plan`.  The C control flow is followed exactly; in particular the new
entry is linked into the entry list *before* the `BoatEntryEntry` allocation
and the group-add call, and the failure paths of those two steps free the
entry without unlinking it (the model keeps the dangling entry in the list,
which is what a subsequent iteration observes). -/
def BoatRegistry_add (plan : AllocPlan) (r : Registry) (boat : Boat)
    (name : String) (group : Option String) (boatAltName : Option String) :
    AddResult × Registry :=
  if (findBoatEntry r name).isSome then (AddResult.alreadyExists, r)
  else if plan.entryOk = false then (AddResult.failed, r)
  else if plan.nameOk = false then (AddResult.failed, r)
  else if group.isSome ∧ plan.groupOk = false then (AddResult.failed, r)
  else
    let newEntry : RegEntry := ⟨name, group, boat⟩
    -- The entry is linked at the tail of the iteration list here.
    let entries := r.entries ++ [newEntry]
    if plan.entryEntryOk = false then
      -- BoatEntryEntry allocation failed: the C code returns Failed but the
      -- entry stays linked (and is freed - a dangling node).
      (AddResult.failed, { r with entries := entries })
    else if group.isSome ∧ plan.groupAddRc ≠ 0 then
      -- Group-add failed: as above, Failed with the entry still linked.
      (AddResult.failed, { r with entries := entries })
    else
      let groups :=
        match group with
        | some g => groupAddBoat r.groups g name boatAltName
        | none => r.groups
      (AddResult.ok, { entries := entries, groups := groups, count := r.count + 1 })

/-- `BoatRegistry_get` from `BoatRegistry.c`. -/
def BoatRegistry_get (r : Registry) (name : String) : Option Boat :=
  (findBoatEntry r name).map (fun e => e.boat)

/-- `BoatRegistry_remove` from `BoatRegistry.c`: unlinks the named entry from
the list and the group index, returning the vessel. -/
def BoatRegistry_remove (r : Registry) (name : String) : Option Boat × Registry :=
  match findBoatEntry r name with
  | none => (none, r)
  | some e =>
      let groups :=
        match e.group with
        | some g => groupRemoveBoat r.groups g name
        | none => r.groups
      (some e.boat,
        { entries := r.entries.eraseP (fun x => x.name == name)
          groups := groups
          count := r.count - 1 })


/-- A parsed command: the C `struct Command` is a target name, an action tag
and a typed value array; the tag determines which values are meaningful, so
the pair is rendered as an inductive with per-action payloads (`Command.h` /
`Command.c`). -/
inductive Command where
  | stop (name : String)
  | start (name : String)
  | courseTrue (name : String) (course : ℤ)
  | courseMag (name : String) (course : ℤ)
  | sailArea (name : String) (area : ℤ)
  | addBoat (name : String) (lat lon : ℚ) (boatType boatFlags : ℤ)
  | addBoatWithGroup (name : String) (lat lon : ℚ) (boatType boatFlags : ℤ)
      (group alt : String)
  | removeBoat (name : String)
deriving DecidableEq, Repr

/-- The target boat name of a command. -/
def Command.targetName : Command → String
  | .stop n => n
  | .start n => n
  | .courseTrue n _ => n
  | .courseMag n _ => n
  | .sailArea n _ => n
  | .addBoat n _ _ _ _ => n
  | .addBoatWithGroup n _ _ _ _ _ _ => n
  | .removeBoat n => n

/-- Modelled from the spec: `BoatWindResponse_isBoatTypeBasic` (its defining
revision is not in the snapshot): the basic model family is the types of the
wind-response tables, 0 through `BOAT_TYPE_MAX`. -/
def isBoatTypeBasic (t : ℤ) : Bool :=
  decide (0 ≤ t ∧ t ≤ BOAT_TYPE_MAX)

/-- `isBoatTypeValid` from `Command.c`: basic or advanced. -/
def isBoatTypeValid (env : Env) (t : ℤ) : Bool :=
  isBoatTypeBasic t || env.isBoatTypeAdvanced t

/-- `BOAT_FLAGS_MAX_VALUE` (0x3f) from `Command.c`. -/
def BOAT_FLAGS_MAX_VALUE : ℤ := 0x3f

/-- `areValuesValidForAction` from `Command.c`: the per-action validity
predicate applied before a parsed command is queued. -/
def areValuesValidForAction (env : Env) : Command → Bool
  | .courseTrue _ c => decide (0 ≤ c ∧ c ≤ 360)
  | .courseMag _ c => decide (0 ≤ c ∧ c ≤ 360)
  | .sailArea _ a => decide (0 ≤ a ∧ a ≤ 100)
  | .addBoat _ lat lon bt flags =>
      decide (-90 < lat ∧ lat < 90 ∧ -180 ≤ lon ∧ lon ≤ 180) &&
      isBoatTypeValid env bt && decide (0 ≤ flags ∧ flags ≤ BOAT_FLAGS_MAX_VALUE)
  | .addBoatWithGroup _ lat lon bt flags group _ =>
      decide (group ≠ "") &&
      (decide (-90 < lat ∧ lat < 90 ∧ -180 ≤ lon ∧ lon ≤ 180) &&
        isBoatTypeValid env bt && decide (0 ≤ flags ∧ flags ≤ BOAT_FLAGS_MAX_VALUE))
  | _ => true

/-- In-place mutation of the vessel owned by the first entry with the given
name (the registry hands out a pointer to the owned `Boat`; a vessel command
mutates it through that pointer). -/
def modifyFirstBoat : List RegEntry → String → (Boat → Boat) → List RegEntry
  | [], _, _ => []
  | e :: rest, n, f =>
      if e.name == n then { e with boat := f e.boat } :: rest
      else e :: modifyFirstBoat rest n f

/-- `handleBoatRegistryCommand` from `main.c`: add/remove registry
membership.  A failed `BoatRegistry_add` frees the new vessel and keeps the
registry result; a failed `Boat_new` allocation (plan) changes nothing. -/
def handleBoatRegistryCommand (plan : AllocPlan) (r : Registry) :
    Command → Registry
  | .addBoat name lat lon bt flags =>
      if plan.boatNewOk then
        (BoatRegistry_add plan r (Boat_new lat lon bt flags.toNat) name none none).2
      else r
  | .addBoatWithGroup name lat lon bt flags group alt =>
      if plan.boatNewOk then
        (BoatRegistry_add plan r (Boat_new lat lon bt flags.toNat) name
          (some group) (some alt)).2
      else r
  | .removeBoat name => (BoatRegistry_remove r name).2
  | _ => r

/-- `handleCommand` from `main.c` (revision 1.15.1, the one built by this
tree): registry actions are dispatched to `handleBoatRegistryCommand`; other
actions look up the target vessel and silently drop the command if it is
absent.  Note that the `switch` has no `COMMAND_ACTION_SAIL_AREA` case, so a
sail-area command leaves the vessel unchanged. -/
def handleCommand (env : Env) (t : ℤ) (plan : AllocPlan) (r : Registry) :
    Command → Registry
  | .addBoat name lat lon bt flags =>
      handleBoatRegistryCommand plan r (.addBoat name lat lon bt flags)
  | .addBoatWithGroup name lat lon bt flags group alt =>
      handleBoatRegistryCommand plan r
        (.addBoatWithGroup name lat lon bt flags group alt)
  | .removeBoat name => handleBoatRegistryCommand plan r (.removeBoat name)
  | .stop name =>
      match BoatRegistry_get r name with
      | none => r
      | some _ =>
          { r with entries := (modifyFirstBoat r.entries name
              (fun b => { b with sailsDown := true })) }
  | .start name =>
      match BoatRegistry_get r name with
      | none => r
      | some foundBoat =>
          if Boat_isHeadingTowardWater env t foundBoat then
            { r with entries := (modifyFirstBoat r.entries name
                (fun b => { b with stop := false, sailsDown := false, movingToSea := true })) }
          else r
  | .courseTrue name course =>
      match BoatRegistry_get r name with
      | none => r
      | some _ =>
          { r with entries := (modifyFirstBoat r.entries name
              (fun b => { b with desiredCourse := (course : ℚ), courseMagnetic := false })) }
  | .courseMag name course =>
      match BoatRegistry_get r name with
      | none => r
      | some _ =>
          { r with entries := (modifyFirstBoat r.entries name
              (fun b => { b with desiredCourse := (course : ℚ), courseMagnetic := true })) }
  | .sailArea _ _ => r

/-- The command-phase drain loop of `main.c`:
`while ((cmd = Command_next())) handleCommand(cmd);` applied to the FIFO
contents in queue order. -/
def drainCommands (env : Env) (t : ℤ) (plan : AllocPlan) (r : Registry) :
    List Command → Registry
  | [] => r
  | cmd :: rest => drainCommands env t plan (handleCommand env t plan r cmd) rest


/-- One evolution step of a single vessel under the engine: a simulation tick
(`Boat_advance`, any wall-clock time and RNG seed) or one of the vessel
commands dispatched by `handleCommand` in `main.c` (the stop command sets
`sailsDown`; the start command requires water ahead; course commands carry a
value the parser validated to lie in 0..360). -/
inductive BoatStep (env : Env) : Boat → Boat → Prop where
  | advance (t : ℤ) (seed : ℕ) (b : Boat) :
      BoatStep env b (Boat_advance env t b seed).1
  | cmdStop (b : Boat) : BoatStep env b { b with sailsDown := true }
  | cmdStart (t : ℤ) (b : Boat) (h : Boat_isHeadingTowardWater env t b = true) :
      BoatStep env b { b with stop := false, sailsDown := false, movingToSea := true }
  | cmdCourse (b : Boat) (course : ℤ) (mag : Bool)
      (h : 0 ≤ course ∧ course ≤ 360) :
      BoatStep env b { b with desiredCourse := (course : ℚ), courseMagnetic := mag }

/-- Vessel states reachable from a freshly created boat (an add command whose
values passed `areValuesValidForAction`) by any sequence of ticks and
start/stop/course commands. -/
inductive BoatReachable (env : Env) : Boat → Prop where
  | init (lat lon : ℚ) (boatType flags : ℤ)
      (hlat : -90 < lat ∧ lat < 90) (hlon : -180 ≤ lon ∧ lon ≤ 180)
      (htype : isBoatTypeValid env boatType = true)
      (hflags : 0 ≤ flags ∧ flags ≤ BOAT_FLAGS_MAX_VALUE) :
      BoatReachable env (Boat_new lat lon boatType flags.toNat)
  | step (b b' : Boat) : BoatReachable env b → BoatStep env b b' →
      BoatReachable env b'



/-- Helper for claim C1: bounds and conditional monotonicity of the
repair-or-take damage tail, for any substituted gust magnitude and
threshold. -/
theorem updateDamageTail_bounds (b : Boat) (g thr : ℚ) (td : Bool)
    (h0 : 0 ≤ b.damage) (h1 : b.damage ≤ 100) :
    0 ≤ (updateDamageTail b g thr td).damage ∧
    (updateDamageTail b g thr td).damage ≤ 100 ∧
    (td = false → (updateDamageTail b g thr td).damage ≤ b.damage) := by
  have hRF : (0:ℚ) < DAMAGE_REPAIR_FACTOR := by
    norm_num [DAMAGE_REPAIR_FACTOR, KTS_IN_MPS]
  have hTF : (0:ℚ) < DAMAGE_TAKE_FACTOR := by
    norm_num [DAMAGE_TAKE_FACTOR, KTS_IN_MPS]
  unfold updateDamageTail
  dsimp only
  split_ifs with hg hd hclamp hc hclamp2 <;> try dsimp only
  · exact ⟨le_refl 0, by norm_num, fun _ => h0⟩
  · have hrep : 0 < (DAMAGE_DECREASE_THRESHOLD - g) * DAMAGE_REPAIR_FACTOR :=
      mul_pos (by linarith) hRF
    exact ⟨by linarith [not_lt.1 hclamp], by linarith, fun _ => by linarith⟩
  · exact ⟨h0, h1, fun _ => le_refl _⟩
  · refine ⟨by norm_num, le_refl _, fun htd => ?_⟩
    rcases hc with ⟨-, habs, -⟩
    rw [htd] at habs
    exact absurd habs (by simp)
  · have hsq : (0:ℚ) ≤ (g - thr) * (g - thr) := mul_self_nonneg _
    have hnn : 0 ≤ (100 - b.damage) *
        ((g - thr) * (g - thr) * DAMAGE_TAKE_FACTOR * 0.01) := by
      have h100 : (0:ℚ) ≤ 100 - b.damage := by linarith [hc.2.2]
      have hstep : (0:ℚ) ≤ (g - thr) * (g - thr) * DAMAGE_TAKE_FACTOR * 0.01 :=
        mul_nonneg (mul_nonneg hsq (le_of_lt hTF)) (by norm_num)
      exact mul_nonneg h100 hstep
    refine ⟨by linarith, by linarith [not_lt.1 hclamp2], fun htd => ?_⟩
    rcases hc with ⟨-, habs, -⟩
    rw [htd] at habs
    exact absurd habs (by simp)
  · exact ⟨h0, h1, fun _ => le_refl _⟩

/-- C1: for every vessel and every call to the damage update (as invoked from
`Boat_advance` for moving, sails-down and stopped vessels), if the damage is
in [0, 100] beforehand then the resulting damage lies in [0, 100]; and
whenever the take-damage condition is false, the damage after the update is
at most the damage before (damage is non-increasing). -/
theorem C1_updateDamage_bounds_and_monotone (env : Env) (b : Boat)
    (windGust windAngle : ℚ) (takeDamage : Bool)
    (h0 : 0 ≤ b.damage) (h1 : b.damage ≤ 100) :
    0 ≤ (updateDamage env b windGust windAngle takeDamage).damage ∧
    (updateDamage env b windGust windAngle takeDamage).damage ≤ 100 ∧
    (takeDamage = false →
      (updateDamage env b windGust windAngle takeDamage).damage ≤ b.damage) := by
  unfold updateDamage
  split
  · exact ⟨h0, h1, fun _ => le_refl _⟩
  · exact updateDamageTail_bounds b _ _ takeDamage h0 h1

/-- A minimal concrete environment used by the witnesses: everything is
water, wind is calm, no ocean or wave data, no advanced types. -/
def calmEnv : Env :=
  { isWater := fun _ => true
    weather := fun _ => ⟨⟨0, 0⟩, 0⟩
    ocean := fun _ => none
    wave := fun _ => none
    magdec := fun _ _ => 0
    vecAdd := fun v _ => v
    posAdvance := fun p _ => p
    compassDiff := fun h c => c - h
    exp := fun _ => 1
    rand := fun s => (0, s)
    isBoatTypeAdvanced := fun _ => false
    adjustBoatTypeForAdvanced := fun t => t
    damageWindGustThreshold := fun _ => 15
    advancedUpdate := fun _ _ => none }

/-- A concrete damaged vessel for the C1 witness. -/
def C1wBoat : Boat := { Boat_new 0 0 0 1 with damage := 50 }

/-- Witness for C1: the theorem applied to a concrete damaged type-0 vessel,
its hypotheses discharged by evaluation. -/
theorem C1_witness :
    (0 ≤ C1wBoat.damage ∧ C1wBoat.damage ≤ 100) ∧
    (0 ≤ (updateDamage calmEnv C1wBoat 3 0 false).damage ∧
      (updateDamage calmEnv C1wBoat 3 0 false).damage ≤ 100 ∧
      (false = false →
        (updateDamage calmEnv C1wBoat 3 0 false).damage ≤ C1wBoat.damage)) :=
  ⟨⟨by decide, by decide⟩,
    C1_updateDamage_bounds_and_monotone calmEnv C1wBoat 3 0 false
      (by decide) (by decide)⟩


/-- C6: `BoatRegistry_add` with a name already present returns `Exists` and
leaves the entire registry state unchanged - entry count, insertion-ordered
entry list, the vessel bound to the name, and all group memberships - for
every allocation plan. -/
theorem C6_add_existing_name_unchanged (plan : AllocPlan) (r : Registry)
    (boat : Boat) (name : String) (group boatAltName : Option String)
    (h : (findBoatEntry r name).isSome = true) :
    BoatRegistry_add plan r boat name group boatAltName =
      (AddResult.alreadyExists, r) := by
  unfold BoatRegistry_add
  simp [h]

/-- A fresh vessel used in the registry scenarios. -/
def regBoat : Boat := Boat_new 0 0 0 0

/-- A one-entry registry (vessel "A") used by the registry witnesses. -/
def C6reg : Registry :=
  ⟨[⟨"A", none, regBoat⟩], ([] : GroupIndex), 1⟩

/-- Witness for C6: a duplicate add of "A" against the one-entry registry. -/
theorem C6_witness :
    (findBoatEntry C6reg "A").isSome = true ∧
    BoatRegistry_add AllocPlan.allOk C6reg regBoat "A" none none =
      (AddResult.alreadyExists, C6reg) :=
  ⟨by decide,
    C6_add_existing_name_unchanged AllocPlan.allOk C6reg regBoat "A" none none
      (by decide)⟩

/-- The allocation plan in which the `BoatEntryEntry` allocation inside
`BoatRegistry_add` fails (everything before it succeeds). -/
def C7plan : AllocPlan := ⟨true, true, true, false, 0, true⟩

/-- C7 (code bug): when the `BoatEntryEntry` allocation fails,
`BoatRegistry_add` returns `Failed` but the new entry was already linked at
the tail of the insertion-order entry list and is never unlinked (the C code
frees the entry while `_first`/`_last` still reference it), so the registry
is not left unchanged: the entry list now contains the new name while the
count was not incremented. -/
theorem C7_add_alloc_failure_mutates_registry :
    (BoatRegistry_add C7plan Registry.empty regBoat "A" none none).1 =
      AddResult.failed ∧
    (BoatRegistry_add C7plan Registry.empty regBoat "A" none none).2 ≠
      Registry.empty ∧
    (BoatRegistry_add C7plan Registry.empty regBoat "A" none none).2.entries =
      [⟨"A", none, regBoat⟩] ∧
    (BoatRegistry_add C7plan Registry.empty regBoat "A" none none).2.count = 0 := by
  refine ⟨by decide, by decide, by decide, by decide⟩


/-- C8 counterexample: a `sail_area` command addressing a vessel that exists
in the registry (and whose value 50 passes the parser's validity check) does
NOT mutate the vessel: `handleCommand` in `main.c` has no
`COMMAND_ACTION_SAIL_AREA` case, so the registry state is exactly unchanged,
contradicting the claim that sail-area commands mutate the addressed
vessel. -/
theorem C8_counterexample_sailArea_ignored :
    areValuesValidForAction calmEnv (Command.sailArea "A" 50) = true ∧
    BoatRegistry_get C6reg "A" = some regBoat ∧
    handleCommand calmEnv 0 AllocPlan.allOk C6reg (Command.sailArea "A" 50) =
      C6reg :=
  ⟨by decide, by decide, rfl⟩

/-- C8 (amended): the command-phase drain applies every queued command in
queue order; add/remove commands mutate registry membership; stop, course
(true or magnetic) and start (the latter only when water lies ahead) mutate
the addressed vessel in place; sail-area commands are accepted by the parser
but ignored by the dispatcher; and any vessel command naming a vessel not in
the registry is silently dropped with no state change. -/
theorem C8_command_drain_behaviour (env : Env) (t : ℤ) (plan : AllocPlan)
    (r : Registry) :
    (∀ (cmd : Command) (rest : List Command),
      drainCommands env t plan r (cmd :: rest) =
        drainCommands env t plan (handleCommand env t plan r cmd) rest) ∧
    drainCommands env t plan r [] = r ∧
    (∀ name, BoatRegistry_get r name = none →
      handleCommand env t plan r (.stop name) = r ∧
      handleCommand env t plan r (.start name) = r ∧
      (∀ cv, handleCommand env t plan r (.courseTrue name cv) = r) ∧
      (∀ cv, handleCommand env t plan r (.courseMag name cv) = r) ∧
      (∀ a, handleCommand env t plan r (.sailArea name a) = r)) ∧
    (∀ name a, handleCommand env t plan r (.sailArea name a) = r) ∧
    (∀ name, (BoatRegistry_get r name).isSome = true →
      handleCommand env t plan r (.stop name) =
        { r with entries := (modifyFirstBoat r.entries name
            (fun b => { b with sailsDown := true })) }) ∧
    (∀ name cv, (BoatRegistry_get r name).isSome = true →
      handleCommand env t plan r (.courseTrue name cv) =
        { r with entries := (modifyFirstBoat r.entries name
            (fun b => { b with desiredCourse := (cv : ℚ), courseMagnetic := false })) } ∧
      handleCommand env t plan r (.courseMag name cv) =
        { r with entries := (modifyFirstBoat r.entries name
            (fun b => { b with desiredCourse := (cv : ℚ), courseMagnetic := true })) }) ∧
    (∀ name fb, BoatRegistry_get r name = some fb →
      handleCommand env t plan r (.start name) =
        (if Boat_isHeadingTowardWater env t fb then
          { r with entries := (modifyFirstBoat r.entries name
              (fun b => { b with stop := false, sailsDown := false, movingToSea := true })) }
        else r)) ∧
    (∀ name lat lon bt flags,
      handleCommand env t plan r (.addBoat name lat lon bt flags) =
        (if plan.boatNewOk then
          (BoatRegistry_add plan r (Boat_new lat lon bt flags.toNat) name none none).2
        else r)) ∧
    (∀ name, handleCommand env t plan r (.removeBoat name) =
      (BoatRegistry_remove r name).2) := by
  refine ⟨fun _ _ => rfl, rfl, ?_, fun _ _ => rfl, ?_, ?_, ?_, ?_, fun _ => rfl⟩
  · intro name h
    refine ⟨?_, ?_, fun cv => ?_, fun cv => ?_, fun a => rfl⟩ <;>
      simp [handleCommand, h]
  · intro name h
    obtain ⟨fb, hfb⟩ := Option.isSome_iff_exists.1 h
    simp [handleCommand, hfb]
  · intro name cv h
    obtain ⟨fb, hfb⟩ := Option.isSome_iff_exists.1 h
    constructor <;> simp [handleCommand, hfb]
  · intro name fb hfb
    simp [handleCommand, hfb]
  · intro name lat lon bt flags
    rfl


/-- Witness for the amended C8 theorem: the stop-command component applied to
the one-entry registry, its presence hypothesis discharged by evaluation. -/
theorem C8_witness :
    (BoatRegistry_get C6reg "A").isSome = true ∧
    handleCommand calmEnv 0 AllocPlan.allOk C6reg (.stop "A") =
      { C6reg with entries := (modifyFirstBoat C6reg.entries "A"
          (fun b => { b with sailsDown := true })) } :=
  ⟨by decide,
    (C8_command_drain_behaviour calmEnv 0 AllocPlan.allOk C6reg).2.2.2.2.1 "A"
      (by decide)⟩


/-- C4 (amended): the case analysis of `updateCourse` on
`d = compassDiff(heading, desiredCourseTrue)` and the course change rate `r`:
if `|d| ≤ r` the heading is set exactly to the desired true course; if
`d ∈ [-179, 0)` the heading decreases by `r`; if `d ∈ (0, 179]` it increases
by `r`; and in the remaining region (`d < -179` or `d > 179`, i.e.
`|d| ∈ (179, 180]` for a compass difference) the turn direction is chosen by
the pseudo-random coin flip, in every case followed by the single conditional
normalization step. -/
theorem C4_updateCourse_cases (env : Env) (t : ℤ) (b : Boat) (seed : ℕ)
    (d r : ℚ)
    (hd : d = env.compassDiff b.v.angle (getDesiredCourseTrue env b t))
    (hr : r = BoatWindResponse_getCourseChangeRate b.boatType) :
    (|d| ≤ r →
      (updateCourse env t b seed).1.v.angle = getDesiredCourseTrue env b t) ∧
    (r < |d| → -179 ≤ d → d < 0 →
      (updateCourse env t b seed).1.v.angle = courseNormalize (b.v.angle - r)) ∧
    (r < |d| → 0 < d → d ≤ 179 →
      (updateCourse env t b seed).1.v.angle = courseNormalize (b.v.angle + r)) ∧
    (r < |d| → (d < -179 ∨ 179 < d) →
      (updateCourse env t b seed).1.v.angle =
        (if (env.rand seed).1 % 2 == 0 then courseNormalize (b.v.angle - r)
         else courseNormalize (b.v.angle + r))) := by
  subst hd hr
  refine ⟨fun h1 => ?_, fun h1 h2 h3 => ?_, fun h1 h2 h3 => ?_, fun h1 h2 => ?_⟩
  · unfold updateCourse
    dsimp only
    rw [if_pos h1]
  · unfold updateCourse
    dsimp only
    rw [if_neg (not_le.2 h1), if_pos ⟨h3, h2⟩]
  · unfold updateCourse
    dsimp only
    rw [if_neg (not_le.2 h1)]
    rw [if_neg (by rintro ⟨hlt, -⟩; linarith)]
    rw [if_pos ⟨h2, h3⟩]
  · unfold updateCourse
    dsimp only
    rw [if_neg (not_le.2 h1)]
    rw [if_neg (by rintro ⟨hlt, hge⟩; rcases h2 with h2 | h2 <;> linarith)]
    rw [if_neg (by rintro ⟨hlt, hle⟩; rcases h2 with h2 | h2 <;> linarith)]
    by_cases hm : ((env.rand seed).1 % 2 == 0) = true
    · simp only [if_pos hm]
    · simp only [if_neg hm]


/-- Environment for the C4 counterexample: the compass difference is the true
signed difference wrapped into (-180, 180], and the `rand_r` draw is odd. -/
def C4env : Env :=
  { calmEnv with
    compassDiff := fun h c =>
      if c - h > 180 then c - h - 360
      else if c - h ≤ -180 then c - h + 360
      else c - h
    rand := fun s => (1, s) }

/-- A type-0 vessel (course change rate 3) heading 0 with desired course
180.5, so that the compass difference is -179.5. -/
def C4boat : Boat := { Boat_new 0 0 0 0 with desiredCourse := 180.5 }

/-- C4 counterexample: for `d = -179.5 ∈ (-180, 0)` (with `|d| > r = 3`) the
claim requires the heading to decrease by `r` (to 357 after normalization),
but `updateCourse` reaches the random-tiebreak branch (the deterministic left
turn requires `d ≥ -179`) and, with an odd `rand_r` draw, the heading
increases to 3 instead. -/
theorem C4_counterexample_random_turn_in_deterministic_region :
    C4env.compassDiff C4boat.v.angle (getDesiredCourseTrue C4env C4boat 0) =
      -179.5 ∧
    BoatWindResponse_getCourseChangeRate C4boat.boatType = 3 ∧
    (updateCourse C4env 0 C4boat 0).1.v.angle = 3 ∧
    courseNormalize (C4boat.v.angle - 3) = 357 ∧
    ((3 : ℚ) = 357 → False) := by
  refine ⟨?_, ?_, ?_, ?_, by norm_num⟩
  · norm_num [C4env, C4boat, calmEnv, getDesiredCourseTrue, Boat_new]
  · norm_num [C4boat, Boat_new, BoatWindResponse_getCourseChangeRate,
      COURSE_CHANGE_RATES, BOAT_TYPE_MAX]
  · norm_num [updateCourse, C4env, C4boat, calmEnv, getDesiredCourseTrue,
      Boat_new, BoatWindResponse_getCourseChangeRate, COURSE_CHANGE_RATES,
      BOAT_TYPE_MAX, courseNormalize]
    rw [if_neg (by rw [abs_of_nonneg (by norm_num : (0:ℚ) ≤ 359/2)]; norm_num)]
  · norm_num [courseNormalize, C4boat, Boat_new]

/-- Witness for the amended C4 theorem: the snap case applied at a concrete
boat whose compass difference is 0. -/
theorem C4_witness :
    |calmEnv.compassDiff (Boat_new 0 0 0 0).v.angle
        (getDesiredCourseTrue calmEnv (Boat_new 0 0 0 0) 0)| ≤
      BoatWindResponse_getCourseChangeRate (Boat_new 0 0 0 0).boatType ∧
    (updateCourse calmEnv 0 (Boat_new 0 0 0 0) 0).1.v.angle =
      getDesiredCourseTrue calmEnv (Boat_new 0 0 0 0) 0 := by
  have h : |calmEnv.compassDiff (Boat_new 0 0 0 0).v.angle
      (getDesiredCourseTrue calmEnv (Boat_new 0 0 0 0) 0)| ≤
      BoatWindResponse_getCourseChangeRate (Boat_new 0 0 0 0).boatType := by
    norm_num [calmEnv, Boat_new, getDesiredCourseTrue,
      BoatWindResponse_getCourseChangeRate, COURSE_CHANGE_RATES, BOAT_TYPE_MAX]
  exact ⟨h, (C4_updateCourse_cases calmEnv 0 (Boat_new 0 0 0 0) 0 _ _ rfl rfl).1 h⟩


/-- The coefficient in [-1, 1] produced by one `getRandDouble` draw at a given
seed: `((rand_r % 257) - 128) / 128`. -/
def randCoefAt (env : Env) (seed : ℕ) : ℚ :=
  ((((env.rand seed).1 % 257 : ℕ) : ℤ) - 128 : ℤ) / 128

/-- The `rand_r` seed after one draw. -/
def seedAfter (env : Env) (seed : ℕ) : ℕ := (env.rand seed).2

/-- Each draw coefficient lies in [-1, 1] (the `% 257` residue is in
0..256). -/
theorem randCoefAt_bounds (env : Env) (seed : ℕ) :
    -1 ≤ randCoefAt env seed ∧ randCoefAt env seed ≤ 1 := by
  unfold randCoefAt
  have hz1 : (-128 : ℤ) ≤ (((env.rand seed).1 % 257 : ℕ) : ℤ) - 128 := by omega
  have hz2 : (((env.rand seed).1 % 257 : ℕ) : ℤ) - 128 ≤ 128 := by omega
  constructor
  · rw [le_div_iff₀ (by norm_num : (0:ℚ) < 128)]
    calc (-1 : ℚ) * 128 = ((-128 : ℤ) : ℚ) := by norm_num
      _ ≤ _ := by exact_mod_cast hz1
  · rw [div_le_one (by norm_num : (0:ℚ) < 128)]
    calc ((((((env.rand seed).1 % 257 : ℕ) : ℤ) - 128 : ℤ) : ℚ)) ≤ ((128 : ℤ) : ℚ) := by
          exact_mod_cast hz2
      _ = 128 := by norm_num

/-- The first azimuth wrap loop produces a non-negative value. -/
theorem wrapAzUp_nonneg (x : ℚ) : 0 ≤ wrapAzUp x := by
  suffices H : ∀ (n : ℕ) (y : ℚ), (⌈-y / 360⌉).toNat = n → 0 ≤ wrapAzUp y by
    exact H _ x rfl
  intro n
  induction n using Nat.strong_induction_on with
  | _ n ih =>
    intro y hy
    unfold wrapAzUp
    split_ifs with h
    · have h1 : (0 : ℚ) < -y / 360 := div_pos (by linarith) (by norm_num)
      have h2 : (0 : ℤ) < ⌈-y / 360⌉ := Int.lt_ceil.2 (by exact_mod_cast h1)
      have h3 : ⌈-(y + 360) / 360⌉ = ⌈-y / 360⌉ - 1 := by
        have e : -(y + 360) / 360 = -y / 360 - ((1 : ℤ) : ℚ) := by push_cast; ring
        rw [e, Int.ceil_sub_int]
      exact ih _ (by omega) _ rfl
    · linarith
  
/-- The second azimuth wrap loop keeps the value below 360. -/
theorem wrapAzDown_lt (x : ℚ) : wrapAzDown x < 360 := by
  suffices H : ∀ (n : ℕ) (y : ℚ), (⌊y / 360⌋).toNat = n → wrapAzDown y < 360 by
    exact H _ x rfl
  intro n
  induction n using Nat.strong_induction_on with
  | _ n ih =>
    intro y hy
    unfold wrapAzDown
    split_ifs with h
    · have h1 : (1 : ℚ) ≤ y / 360 := by
        rw [le_div_iff₀ (by norm_num : (0:ℚ) < 360)]; linarith
      have h2 : (1 : ℤ) ≤ ⌊y / 360⌋ := Int.le_floor.2 (by exact_mod_cast h1)
      have h3 : ⌊(y - 360) / 360⌋ = ⌊y / 360⌋ - 1 := by
        have e : (y - 360) / 360 = y / 360 - ((1 : ℤ) : ℚ) := by push_cast; ring
        rw [e, Int.floor_sub_int]
      exact ih _ (by omega) _ rfl
    · linarith
  
/-- The second azimuth wrap loop preserves non-negativity. -/
theorem wrapAzDown_nonneg (x : ℚ) (hx : 0 ≤ x) : 0 ≤ wrapAzDown x := by
  suffices H : ∀ (n : ℕ) (y : ℚ), (⌊y / 360⌋).toNat = n → 0 ≤ y → 0 ≤ wrapAzDown y by
    exact H _ x rfl hx
  intro n
  induction n using Nat.strong_induction_on with
  | _ n ih =>
    intro y hy h0
    unfold wrapAzDown
    split_ifs with h
    · have h1 : (1 : ℚ) ≤ y / 360 := by
        rw [le_div_iff₀ (by norm_num : (0:ℚ) < 360)]; linarith
      have h2 : (1 : ℤ) ≤ ⌊y / 360⌋ := Int.le_floor.2 (by exact_mod_cast h1)
      have h3 : ⌊(y - 360) / 360⌋ = ⌊y / 360⌋ - 1 := by
        have e : (y - 360) / 360 = y / 360 - ((1 : ℤ) : ℚ) := by push_cast; ring
        rw [e, Int.floor_sub_int]
      exact ih _ (by omega) _ rfl (by linarith)
    · exact h0


/-- C9 (amended): with the celestial-wave-effect flag set and valid wave
data, the sight's altitude is perturbed by `1.666667 × U1 × U2 × h² / R` and
its azimuth by `100 × U3 × U4 × h² / R`, where `U1..U4` are four successive
uniform draws in [-1, +1] (each perturbation uses its own pair of draws, and
the wave height enters squared, once per draw); the azimuth is wrapped into
[0, 360); an altitude above 90° is reflected about 90°; and a perturbed
altitude below 0° drops the sight. -/
theorem C9_waveAdjusted_spec (env : Env) (b : Boat) (az alt : ℚ) (seed : ℕ)
    (wd : WaveData) (u1 u2 u3 u4 wer : ℚ)
    (hflag : (b.boatFlags &&& BOAT_FLAG_CELESTIAL_WAVE_EFFECT == 0) = false)
    (hwave : env.wave b.pos = some wd)
    (h1 : u1 = randCoefAt env seed)
    (h2 : u2 = randCoefAt env (seedAfter env seed))
    (h3 : u3 = randCoefAt env (seedAfter env (seedAfter env seed)))
    (h4 : u4 = randCoefAt env (seedAfter env (seedAfter env (seedAfter env seed))))
    (hwer : wer = BoatWindResponse_getWaveEffectResistance b.boatType) :
    ((-1 ≤ u1 ∧ u1 ≤ 1) ∧ (-1 ≤ u2 ∧ u2 ≤ 1) ∧
      (-1 ≤ u3 ∧ u3 ≤ 1) ∧ (-1 ≤ u4 ∧ u4 ≤ 1)) ∧
    (Boat_getWaveAdjustedCelestialAzAlt env b az alt seed).1 =
      (if alt + 1.666667 * u1 * u2 * (wd.waveHeight * wd.waveHeight) / wer < 0 then
        none
      else
        some (wrapAzDown (wrapAzUp
            (az + 100 * u3 * u4 * (wd.waveHeight * wd.waveHeight) / wer)),
          if alt + 1.666667 * u1 * u2 * (wd.waveHeight * wd.waveHeight) / wer > 90 then
            90 - (alt + 1.666667 * u1 * u2 * (wd.waveHeight * wd.waveHeight) / wer - 90)
          else alt + 1.666667 * u1 * u2 * (wd.waveHeight * wd.waveHeight) / wer)) ∧
    0 ≤ wrapAzDown (wrapAzUp
        (az + 100 * u3 * u4 * (wd.waveHeight * wd.waveHeight) / wer)) ∧
    wrapAzDown (wrapAzUp
        (az + 100 * u3 * u4 * (wd.waveHeight * wd.waveHeight) / wer)) < 360 := by
  subst h1 h2 h3 h4 hwer
  refine ⟨⟨randCoefAt_bounds env _, randCoefAt_bounds env _,
      randCoefAt_bounds env _, randCoefAt_bounds env _⟩, ?_,
    wrapAzDown_nonneg _ (wrapAzUp_nonneg _), wrapAzDown_lt _⟩
  have hg : ∀ s sc, getRandDouble env s sc = (randCoefAt env s * sc, seedAfter env s) :=
    fun s sc => rfl
  unfold Boat_getWaveAdjustedCelestialAzAlt
  rw [if_neg (by simp [hflag]), hwave]
  simp only [hg]
  have eAlt : alt + 1.666667 * (randCoefAt env seed * wd.waveHeight) *
      (randCoefAt env (seedAfter env seed) * wd.waveHeight) /
      BoatWindResponse_getWaveEffectResistance b.boatType =
      alt + 1.666667 * randCoefAt env seed * randCoefAt env (seedAfter env seed) *
      (wd.waveHeight * wd.waveHeight) /
      BoatWindResponse_getWaveEffectResistance b.boatType := by
    ring
  have eAz : az + 100 * (randCoefAt env (seedAfter env (seedAfter env seed)) * wd.waveHeight) *
      (randCoefAt env (seedAfter env (seedAfter env (seedAfter env seed))) * wd.waveHeight) /
      BoatWindResponse_getWaveEffectResistance b.boatType =
      az + 100 * randCoefAt env (seedAfter env (seedAfter env seed)) *
      randCoefAt env (seedAfter env (seedAfter env (seedAfter env seed))) *
      (wd.waveHeight * wd.waveHeight) /
      BoatWindResponse_getWaveEffectResistance b.boatType := by
    ring
  rw [eAlt, eAz, apply_ite Prod.fst]


/-- Environment for the C9 counterexample: wave height 2 everywhere and a
`rand_r` that always returns 256, so every draw coefficient is exactly 1. -/
def C9env : Env :=
  { calmEnv with
    wave := fun _ => some ⟨2⟩
    rand := fun s => (256, s) }

/-- A type-0 vessel with only the celestial-wave-effect flag set. -/
def C9boat : Boat := Boat_new 0 0 0 8

/-- C9 counterexample: with wave height `h = 2`, resistance `R = 75` (type 0)
and all four uniform draws equal to 1, the code perturbs the altitude by
`1.666667 × h² / R = 1.666667 × 4 / 75` (and the azimuth by `100 × 4 / 75`),
whereas the claim's formula `(100, 1.666667) × U1 × U2 × h / R` gives an
altitude perturbation of `1.666667 × 2 / 75` - a different value, so the
claim is false at this input. -/
theorem C9_counterexample_wave_height_squared :
    randCoefAt C9env 0 = 1 ∧
    (Boat_getWaveAdjustedCelestialAzAlt C9env C9boat 0 10 0).1 =
      some (100 * 4 / 75, 10 + 1.666667 * 4 / 75) ∧
    (10 + 1.666667 * 4 / 75 : ℚ) ≠ 10 + 1.666667 * 1 * 1 * 2 / 75 := by
  refine ⟨?_, ?_, by norm_num⟩
  · norm_num [randCoefAt, C9env, calmEnv]
  · norm_num [Boat_getWaveAdjustedCelestialAzAlt, getRandDouble, C9env, C9boat,
      calmEnv, Boat_new, BoatWindResponse_getWaveEffectResistance,
      WAVE_EFFECT_RESISTANCES, BOAT_TYPE_MAX, BOAT_FLAG_CELESTIAL_WAVE_EFFECT]
    have hup : wrapAzUp (16 / 3 : ℚ) = 16 / 3 := by
      unfold wrapAzUp
      norm_num
    have hdown : wrapAzDown (16 / 3 : ℚ) = 16 / 3 := by
      unfold wrapAzDown
      norm_num
    rw [hup, hdown]


/-- Witness for the amended C9 theorem at the concrete wave environment:
all hypotheses discharged by evaluation. -/
theorem C9_witness :
    (C9boat.boatFlags &&& BOAT_FLAG_CELESTIAL_WAVE_EFFECT == 0) = false ∧
    C9env.wave C9boat.pos = some ⟨2⟩ ∧
    (((-1 ≤ (1:ℚ) ∧ (1:ℚ) ≤ 1) ∧ (-1 ≤ (1:ℚ) ∧ (1:ℚ) ≤ 1) ∧
      (-1 ≤ (1:ℚ) ∧ (1:ℚ) ≤ 1) ∧ (-1 ≤ (1:ℚ) ∧ (1:ℚ) ≤ 1)) ∧
    (Boat_getWaveAdjustedCelestialAzAlt C9env C9boat 0 10 0).1 =
      (if (10:ℚ) + 1.666667 * 1 * 1 * ((WaveData.mk 2).waveHeight * (WaveData.mk 2).waveHeight) / 75 < 0 then
        none
      else
        some (wrapAzDown (wrapAzUp
            (0 + 100 * 1 * 1 * ((WaveData.mk 2).waveHeight * (WaveData.mk 2).waveHeight) / 75)),
          if (10:ℚ) + 1.666667 * 1 * 1 * ((WaveData.mk 2).waveHeight * (WaveData.mk 2).waveHeight) / 75 > 90 then
            90 - (10 + 1.666667 * 1 * 1 * ((WaveData.mk 2).waveHeight * (WaveData.mk 2).waveHeight) / 75 - 90)
          else 10 + 1.666667 * 1 * 1 * ((WaveData.mk 2).waveHeight * (WaveData.mk 2).waveHeight) / 75)) ∧
    0 ≤ wrapAzDown (wrapAzUp
        (0 + 100 * 1 * 1 * ((WaveData.mk 2).waveHeight * (WaveData.mk 2).waveHeight) / 75)) ∧
    wrapAzDown (wrapAzUp
        (0 + 100 * 1 * 1 * ((WaveData.mk 2).waveHeight * (WaveData.mk 2).waveHeight) / 75)) < 360) :=
  ⟨by decide, rfl,
    C9_waveAdjusted_spec C9env C9boat 0 10 0 ⟨2⟩ 1 1 1 1 75
      (by decide) rfl
      (by norm_num [randCoefAt, seedAfter, C9env, calmEnv])
      (by norm_num [randCoefAt, seedAfter, C9env, calmEnv])
      (by norm_num [randCoefAt, seedAfter, C9env, calmEnv])
      (by norm_num [randCoefAt, seedAfter, C9env, calmEnv])
      (by norm_num [C9boat, Boat_new, BoatWindResponse_getWaveEffectResistance,
        WAVE_EFFECT_RESISTANCES, BOAT_TYPE_MAX])⟩


/-- `updateDamage` writes only the `damage` field. -/
theorem updateDamage_only_damage (env : Env) (c : Boat) (g a : ℚ) (td : Bool) :
    updateDamage env c g a td =
      { c with damage := (updateDamage env c g a td).damage } := by
  unfold updateDamage updateDamageTail
  dsimp only
  split_ifs <;> rfl

/-- Helper: the damage after an `updateDamage` call with the take-damage
condition false never exceeds the damage before. -/
theorem updateDamage_nonincreasing (env : Env) (c : Boat) (g a : ℚ)
    (h0 : 0 ≤ c.damage) (h1 : c.damage ≤ 100) :
    (updateDamage env c g a false).damage ≤ c.damage := by
  unfold updateDamage
  split
  · exact le_refl _
  · exact (updateDamageTail_bounds c _ _ false h0 h1).2.2 rfl

/-- The move part of the ground tail changes neither the water velocity, the
damage, the stop flag, the desired course nor the mode flags. -/
theorem advanceMove_fields (env : Env) (od : Option OceanData) (c : Boat) :
    (Boat_advanceMove env od c).v = c.v ∧
    (Boat_advanceMove env od c).damage = c.damage ∧
    (Boat_advanceMove env od c).stop = c.stop ∧
    (Boat_advanceMove env od c).desiredCourse = c.desiredCourse ∧
    (Boat_advanceMove env od c).movingToSea = c.movingToSea ∧
    (Boat_advanceMove env od c).courseMagnetic = c.courseMagnetic := by
  rcases od with _ | o <;>
    (unfold Boat_advanceMove
     dsimp only
     split_ifs <;> exact ⟨rfl, rfl, rfl, rfl, rfl, rfl⟩)

/-- With water everywhere, the ground-and-move tail changes neither the water
velocity nor the damage of the vessel. -/
theorem advanceGround_v_damage (env : Env) (od : Option OceanData) (c : Boat)
    (hwater : ∀ p, env.isWater p = true) :
    (Boat_advanceGround env od c).v = c.v ∧
    (Boat_advanceGround env od c).damage = c.damage := by
  unfold Boat_advanceGround
  dsimp only
  rw [hwater, if_neg (show ¬(true = false) by simp)]
  exact ⟨(advanceMove_fields env od c).1, (advanceMove_fields env od c).2.1⟩


/-- `updateDamage` leaves the water-velocity vector unchanged. -/
theorem updateDamage_v (env : Env) (c : Boat) (g a : ℚ) (td : Bool) :
    (updateDamage env c g a td).v = c.v := by
  rw [updateDamage_only_damage]

/-- The wave speed factor is unchanged by a damage update. -/
theorem waveSAF_updateDamage (env : Env) (c : Boat) (g a : ℚ) (td : Bool)
    (wd : Option WaveData) :
    waveSpeedAdjustmentFactor env (updateDamage env c g a td) wd =
      waveSpeedAdjustmentFactor env c wd := by
  conv_lhs => rw [updateDamage_only_damage]
  rcases wd with _ | w <;> rfl

/-- The wave speed factor ignores the water-velocity field. -/
theorem waveSAF_ignores_v (env : Env) (c : Boat) (X : GeoVec)
    (wd : Option WaveData) :
    waveSpeedAdjustmentFactor env { c with v := X } wd =
      waveSpeedAdjustmentFactor env c wd := rfl

/-- The wave speed factor depends only on the vessel's flags and type. -/
theorem waveSAF_congr (env : Env) (c' c : Boat) (wd : Option WaveData)
    (hf : c'.boatFlags = c.boatFlags) (ht : c'.boatType = c.boatType) :
    waveSpeedAdjustmentFactor env c' wd = waveSpeedAdjustmentFactor env c wd := by
  unfold waveSpeedAdjustmentFactor
  rcases wd with _ | w
  · rfl
  · rw [hf, ht]

/-- C5: a basic-hull vessel advancing with sails down (on water, not at a
pole) gets its heading set to the (current-adjusted) wind bearing plus 180°
reduced into [0, 360); its water-velocity magnitude set to wind magnitude ×
0.1 × ice factor × wave factor, with no damage speed factor; and its damage
does not increase during the tick (the damage update runs with the
take-damage condition false). -/
theorem C5_sailsDown_basic_hull (env : Env) (t : ℤ) (b : Boat) (seed : ℕ)
    (wx2 : Weather)
    (hstop : b.stop = false)
    (hlat1 : b.pos.lat < 90 - FORBIDDEN_LAT)
    (hlat2 : -90 + FORBIDDEN_LAT < b.pos.lat)
    (hmts : b.movingToSea = false)
    (hadv : env.isBoatTypeAdvanced b.boatType = false)
    (hsails : b.sailsDown = true)
    (hwater : ∀ p, env.isWater p = true)
    (hwx : wx2 = (match env.ocean b.pos with
      | some o => WxUtils_adjustWindForCurrent env (env.weather b.pos) o.current
      | none => env.weather b.pos))
    (hangle0 : 0 ≤ wx2.wind.angle) (hangle1 : wx2.wind.angle < 360)
    (hd0 : 0 ≤ b.damage) (hd1 : b.damage ≤ 100) :
    ((Boat_advance env t b seed).1.v.angle =
      (if wx2.wind.angle + 180 ≥ 360 then wx2.wind.angle + 180 - 360
       else wx2.wind.angle + 180)) ∧
    0 ≤ (Boat_advance env t b seed).1.v.angle ∧
    (Boat_advance env t b seed).1.v.angle < 360 ∧
    ((Boat_advance env t b seed).1.v.mag =
      wx2.wind.mag * 0.1 * oceanIceSpeedAdjustmentFactor (env.ocean b.pos) *
        waveSpeedAdjustmentFactor env b (env.wave b.pos)) ∧
    (Boat_advance env t b seed).1.damage ≤ b.damage := by
  have hpol : ¬(b.pos.lat ≥ 90 - FORBIDDEN_LAT ∨ b.pos.lat ≤ -90 + FORBIDDEN_LAT) := by
    push_neg
    exact ⟨by linarith, by linarith⟩
  have hbound : ∀ x : ℚ, 0 ≤ x → x < 360 →
      0 ≤ (if x + 180 ≥ 360 then x + 180 - 360 else x + 180) ∧
      (if x + 180 ≥ 360 then x + 180 - 360 else x + 180) < 360 := by
    intro x h0 h1
    split_ifs with h <;> constructor <;> linarith
  unfold Boat_advance
  simp only [hstop, hmts, Bool.false_eq_true, if_false]
  rw [if_neg hpol]
  rcases hoc : env.ocean b.pos with _ | o
  · have hwx2 : wx2 = env.weather b.pos := by rw [hwx, hoc]
    unfold Boat_advanceMain Boat_advanceVelocity
    rw [hoc]
    dsimp only
    rw [if_pos ⟨hadv, hsails⟩]
    dsimp only
    rw [(advanceGround_v_damage env _ _ hwater).1,
      (advanceGround_v_damage env _ _ hwater).2]
    dsimp only
    rw [updateDamage_v]
    dsimp only
    rw [← hwx2]
    refine ⟨rfl, (hbound _ hangle0 hangle1).1, (hbound _ hangle0 hangle1).2, ?_, ?_⟩
    · rw [waveSAF_updateDamage, waveSAF_ignores_v]
    · exact updateDamage_nonincreasing env _ _ _ hd0 hd1
  · have hwx2 : wx2 = WxUtils_adjustWindForCurrent env (env.weather b.pos) o.current := by
      rw [hwx, hoc]
    unfold Boat_advanceMain Boat_advanceVelocity
    rw [hoc]
    dsimp only
    rw [if_pos ⟨hadv, hsails⟩]
    dsimp only
    rw [(advanceGround_v_damage env _ _ hwater).1,
      (advanceGround_v_damage env _ _ hwater).2]
    dsimp only
    rw [updateDamage_v]
    dsimp only
    rw [← hwx2]
    refine ⟨rfl, (hbound _ hangle0 hangle1).1, (hbound _ hangle0 hangle1).2, ?_, ?_⟩
    · rw [waveSAF_updateDamage, waveSAF_ignores_v]
    · exact updateDamage_nonincreasing env _ _ _ hd0 hd1


/-- A basic-hull type-0 vessel, started and with sails down, for the C5
witness. -/
def C5boat : Boat := { Boat_new 0 0 0 0 with stop := false, sailsDown := true }

/-- Witness for C5: the theorem applied in the calm all-water environment,
with every hypothesis discharged by evaluation. -/
theorem C5_witness :
    C5boat.stop = false ∧ C5boat.sailsDown = true ∧
    (((Boat_advance calmEnv 0 C5boat 0).1.v.angle =
      (if (calmEnv.weather C5boat.pos).wind.angle + 180 ≥ 360 then
        (calmEnv.weather C5boat.pos).wind.angle + 180 - 360
      else (calmEnv.weather C5boat.pos).wind.angle + 180)) ∧
    0 ≤ (Boat_advance calmEnv 0 C5boat 0).1.v.angle ∧
    (Boat_advance calmEnv 0 C5boat 0).1.v.angle < 360 ∧
    ((Boat_advance calmEnv 0 C5boat 0).1.v.mag =
      (calmEnv.weather C5boat.pos).wind.mag * 0.1 *
        oceanIceSpeedAdjustmentFactor (calmEnv.ocean C5boat.pos) *
        waveSpeedAdjustmentFactor calmEnv C5boat (calmEnv.wave C5boat.pos)) ∧
    (Boat_advance calmEnv 0 C5boat 0).1.damage ≤ C5boat.damage) :=
  ⟨rfl, rfl,
    C5_sailsDown_basic_hull calmEnv 0 C5boat 0 (calmEnv.weather C5boat.pos)
      rfl
      (by norm_num [C5boat, Boat_new, FORBIDDEN_LAT])
      (by norm_num [C5boat, Boat_new, FORBIDDEN_LAT])
      rfl rfl rfl
      (fun _ => rfl)
      rfl
      (by norm_num [calmEnv])
      (by norm_num [calmEnv])
      (by norm_num [C5boat, Boat_new])
      (by norm_num [C5boat, Boat_new])⟩


/-- C3 (amended): a started vessel whose latitude satisfies
`|lat| ≥ 90 - 0.0001` at the start of `Boat_advance` is stopped by the polar
guard and its position is not updated. -/
theorem C3_polar_guard_stops_without_moving (env : Env) (t : ℤ) (b : Boat)
    (seed : ℕ) (hstop : b.stop = false)
    (hlat : b.pos.lat ≥ 90 - FORBIDDEN_LAT ∨ b.pos.lat ≤ -90 + FORBIDDEN_LAT) :
    (Boat_advance env t b seed).1.stop = true ∧
    (Boat_advance env t b seed).1.pos = b.pos := by
  unfold Boat_advance
  simp only [hstop, Bool.false_eq_true, if_false]
  rw [if_pos hlat]
  exact ⟨rfl, rfl⟩

/-- A started vessel very close to the north pole for the C3 witness. -/
def C3polarBoat : Boat := { Boat_new (899999/10000) 0 0 0 with stop := false }

/-- Witness for the amended C3 theorem: a started vessel at latitude 89.9999
is stopped in place by the first advance. -/
theorem C3_witness :
    C3polarBoat.stop = false ∧
    (C3polarBoat.pos.lat ≥ 90 - FORBIDDEN_LAT ∨
      C3polarBoat.pos.lat ≤ -90 + FORBIDDEN_LAT) ∧
    ((Boat_advance calmEnv 0 C3polarBoat 0).1.stop = true ∧
      (Boat_advance calmEnv 0 C3polarBoat 0).1.pos = C3polarBoat.pos) :=
  ⟨rfl, Or.inl (by norm_num [C3polarBoat, Boat_new, FORBIDDEN_LAT]),
    C3_polar_guard_stops_without_moving calmEnv 0 C3polarBoat 0 rfl
      (Or.inl (by norm_num [C3polarBoat, Boat_new, FORBIDDEN_LAT]))⟩

/-- Environment for the C3 counterexample: calm, all water, and a one-second
geodesy step that carries the vessel to latitude 89.99995 (about 17 m of
northward motion from 89.9998). -/
def C3env : Env :=
  { calmEnv with posAdvance := fun p _ => ⟨1799999/20000, p.lon⟩ }

/-- A started type-0 vessel at latitude 89.9998, just south of the forbidden
band. -/
def C3boat : Boat := { Boat_new (899998/10000) 0 0 0 with stop := false }

/-- C3 counterexample: a vessel that starts its advance south of the polar
guard band is not stopped, yet the position update inside the same tick can
carry its latitude beyond `90 - 0.0001`, so the latitude bound does not hold
when `Boat_advance` returns (the guard only fires at the start of the next
tick). -/
theorem C3_counterexample_lat_beyond_band_after_advance :
    C3boat.pos.lat < 90 - FORBIDDEN_LAT ∧
    (Boat_advance C3env 0 C3boat 0).1.stop = false ∧
    (Boat_advance C3env 0 C3boat 0).1.pos.lat = 1799999/20000 ∧
    ¬((Boat_advance C3env 0 C3boat 0).1.pos.lat ≤ 90 - 0.0001) := by
  have hgbs : BoatWindResponse_getBoatSpeed (0:ℚ) 0 0 = 0 := by
    unfold BoatWindResponse_getBoatSpeed
    norm_num
  refine ⟨by norm_num [C3boat, Boat_new, FORBIDDEN_LAT], ?_, ?_, ?_⟩ <;>
    norm_num [Boat_advance, Boat_advanceMain, Boat_advanceVelocity, Boat_advanceGround, Boat_advanceMove, updateDamage,
      updateCourse, updateVelocity, getDesiredCourseTrue, hgbs,
      BoatWindResponse_getCourseChangeRate, BoatWindResponse_getSpeedChangeResponse,
      COURSE_CHANGE_RATES, BOAT_INERTIAS, BOAT_TYPE_MAX, courseNormalize,
      oceanIceSpeedAdjustmentFactor, waveSpeedAdjustmentFactor,
      C3env, C3boat, calmEnv, Boat_new, FORBIDDEN_LAT]


/-- `updateCourse` changes only the heading (and the RNG seed). -/
theorem updateCourse_only_angle (env : Env) (t : ℤ) (b : Boat) (seed : ℕ) :
    (updateCourse env t b seed).1 =
      { b with v := ⟨(updateCourse env t b seed).1.v.angle, b.v.mag⟩ } := by
  unfold updateCourse
  dsimp only
  split_ifs <;> rfl

/-- `updateVelocity` changes only the speed, leeway and heel. -/
theorem updateVelocity_eta (env : Env) (b : Boat) (wx : Weather)
    (od : Option OceanData) (wd : Option WaveData) :
    updateVelocity env b wx od wd =
      { b with
        v := ⟨b.v.angle, (updateVelocity env b wx od wd).v.mag⟩
        leewaySpeed := (updateVelocity env b wx od wd).leewaySpeed
        heelingAngle := (updateVelocity env b wx od wd).heelingAngle } := by
  unfold updateVelocity
  dsimp only
  split_ifs <;> (try split) <;> rfl

/-- The damage/course/velocity section preserves the stop flag, the desired
course, the mode flags, the type and the position. -/
theorem advanceVelocity_fields (env : Env) (t : ℤ) (b : Boat) (seed : ℕ) :
    (Boat_advanceVelocity env t b seed).1.stop = b.stop ∧
    (Boat_advanceVelocity env t b seed).1.desiredCourse = b.desiredCourse ∧
    (Boat_advanceVelocity env t b seed).1.movingToSea = b.movingToSea ∧
    (Boat_advanceVelocity env t b seed).1.courseMagnetic = b.courseMagnetic ∧
    (Boat_advanceVelocity env t b seed).1.boatType = b.boatType ∧
    (Boat_advanceVelocity env t b seed).1.pos = b.pos := by
  unfold Boat_advanceVelocity
  dsimp only
  split_ifs with h h2
  · rw [updateDamage_only_damage]
    exact ⟨rfl, rfl, rfl, rfl, rfl, rfl⟩
  · rw [updateDamage_only_damage]
    exact ⟨rfl, rfl, rfl, rfl, rfl, rfl⟩
  · rw [updateVelocity_eta, updateCourse_only_angle, updateDamage_only_damage]
    exact ⟨rfl, rfl, rfl, rfl, rfl, rfl⟩

/-- The ground-and-move section either leaves the stop flag and water
velocity untouched, or (upon landing) stops the vessel with zero speed; in
both cases the heading, desired course and mode flags are preserved. -/
theorem advanceGround_fields (env : Env) (od : Option OceanData) (c : Boat) :
    ((Boat_advanceGround env od c).stop = c.stop ∧
      (Boat_advanceGround env od c).v = c.v ∧
      (Boat_advanceGround env od c).desiredCourse = c.desiredCourse ∧
      (Boat_advanceGround env od c).movingToSea = c.movingToSea ∧
      (Boat_advanceGround env od c).courseMagnetic = c.courseMagnetic) ∨
    ((Boat_advanceGround env od c).stop = true ∧
      (Boat_advanceGround env od c).v.mag = 0 ∧
      (Boat_advanceGround env od c).v.angle = c.v.angle ∧
      (Boat_advanceGround env od c).desiredCourse = c.desiredCourse ∧
      (Boat_advanceGround env od c).movingToSea = c.movingToSea ∧
      (Boat_advanceGround env od c).courseMagnetic = c.courseMagnetic) := by
  obtain ⟨hv, hd, hs, hdc, hm, hcm⟩ := advanceMove_fields env od c
  unfold Boat_advanceGround
  dsimp only
  split_ifs with h
  · refine Or.inr ⟨rfl, rfl, ?_, hdc, hm, hcm⟩
    show (Boat_advanceMove env od c).v.angle = c.v.angle
    rw [hv]
  · exact Or.inl ⟨hs, hv, hdc, hm, hcm⟩


/-- On the main tick path (entered with the stop flag clear), if the tick
ends with the stop flag set then the landing branch ran, which zeroes the
water-velocity magnitude. -/
theorem advanceMain_stop_mag (env : Env) (t : ℤ) (b : Boat) (seed : ℕ)
    (hstop : b.stop = false) :
    (Boat_advanceMain env t b seed).1.stop = true →
    (Boat_advanceMain env t b seed).1.v.mag = 0 := by
  have hvf := advanceVelocity_fields env t b seed
  rcases advanceGround_fields env (env.ocean b.pos)
      (Boat_advanceVelocity env t b seed).1 with hL | hR
  · intro h'
    exfalso
    have he : (Boat_advanceMain env t b seed).1.stop = b.stop := by
      show (Boat_advanceGround env (env.ocean b.pos)
        (Boat_advanceVelocity env t b seed).1).stop = b.stop
      rw [hL.1, hvf.1]
    rw [h', hstop] at he
    exact Bool.noConfusion he
  · intro _
    show (Boat_advanceGround env (env.ocean b.pos)
      (Boat_advanceVelocity env t b seed).1).v.mag = 0
    exact hR.2.1

/-- A single tick preserves the "stopped implies zero water speed"
invariant. -/
theorem advance_stop_mag (env : Env) (t : ℤ) (b : Boat) (seed : ℕ)
    (ih : b.stop = true → b.v.mag = 0) :
    (Boat_advance env t b seed).1.stop = true →
    (Boat_advance env t b seed).1.v.mag = 0 := by
  by_cases hstop : b.stop = true
  · unfold Boat_advance
    rw [if_pos hstop]
    dsimp only
    split_ifs with hd
    · rw [updateDamage_only_damage]
      intro _
      exact ih hstop
    · intro _
      exact ih hstop
  · have hstop' : b.stop = false := by
      revert hstop; cases b.stop <;> simp
    unfold Boat_advance
    rw [if_neg hstop]
    dsimp only
    split_ifs with hpolar hmts hwater himm hhead
    · intro _; rfl
    · exact advanceMain_stop_mag env t _ seed hstop'
    · exact advanceMain_stop_mag env t _ seed hstop'
    · intro h'
      exfalso
      rw [hstop'] at h'
      exact Bool.noConfusion h'
    · intro _; rfl
    · exact advanceMain_stop_mag env t b seed hstop'

/-- C2 (amended): in every reachable vessel state, a set stop flag implies a
zero water-velocity magnitude.  (The claim's other conjunct — `movingToSea`
implies not stopped — fails; see the counterexample.) -/
theorem C2_stop_implies_zero_speed (env : Env) (b : Boat)
    (h : BoatReachable env b) : b.stop = true → b.v.mag = 0 := by
  induction h with
  | init lat lon boatType flags hlat hlon htype hflags => intro _; rfl
  | step b b' hr hstep ih =>
      cases hstep with
      | advance t seed b => exact advance_stop_mag env t b seed ih
      | cmdStop b => exact ih
      | cmdStart t b hW => intro h'; exact Bool.noConfusion h'
      | cmdCourse b course mag hc => exact ih

/-- The vessel of the C2 counterexample trace: created just inside the polar
band, started (all-water environment), then advanced once, which trips the
polar guard's `stopBoat`. -/
def C2boat0 : Boat := Boat_new (1799999/20000) 0 0 0

/-- The started state of the C2 counterexample vessel. -/
def C2boat1 : Boat :=
  { C2boat0 with stop := false, sailsDown := false, movingToSea := true }

/-- The final state of the C2 counterexample trace. -/
def C2bad : Boat := stopBoat C2boat1

/-- C2 counterexample: `stopBoat` does not clear `movingToSea`, so a vessel
started toward the sea inside the polar band is reachable with both the stop
flag and `movingToSea` set after one tick, refuting "`movingToSea` implies
not stopped". -/
theorem C2_counterexample_stopped_while_movingToSea :
    BoatReachable calmEnv C2bad ∧ C2bad.stop = true ∧ C2bad.movingToSea = true := by
  refine ⟨?_, rfl, rfl⟩
  have hW : Boat_isHeadingTowardWater calmEnv 0 C2boat0 = true := rfl
  have hlat : C2boat1.pos.lat ≥ 90 - FORBIDDEN_LAT := by
    norm_num [C2boat1, C2boat0, Boat_new, FORBIDDEN_LAT]
  have hadv : (Boat_advance calmEnv 0 C2boat1 0).1 = C2bad := by
    unfold Boat_advance
    rw [if_neg (by decide : ¬(C2boat1.stop = true)), if_pos (Or.inl hlat)]
    rfl
  exact BoatReachable.step _ _
    (BoatReachable.step _ _
      (BoatReachable.init (1799999/20000) 0 0 0
        (by norm_num) (by norm_num) (by decide) (by decide))
      (BoatStep.cmdStart 0 _ hW))
    (hadv ▸ BoatStep.advance 0 0 C2boat1)

/-- Witness for the amended C2 theorem: a freshly created vessel is
reachable, stopped, and has zero water speed. -/
theorem C2_witness : (Boat_new 0 0 0 (0 : ℤ).toNat).v.mag = 0 :=
  C2_stop_implies_zero_speed calmEnv _
    (BoatReachable.init 0 0 0 0 (by norm_num) (by norm_num)
      (by decide) (by decide)) rfl

/-- Well-behavedness of the external oracles (proteus geodesy and weather):
wind bearings and vector-sum bearings are compass bearings in `[0, 360)`,
and the magnetic declination never exceeds a full turn in magnitude. -/
structure EnvSane (env : Env) : Prop where
  weather_angle : ∀ p, 0 ≤ (env.weather p).wind.angle ∧ (env.weather p).wind.angle < 360
  vecAdd_angle : ∀ v w, 0 ≤ (env.vecAdd v w).angle ∧ (env.vecAdd v w).angle < 360
  magdec_bounds : ∀ p t, |env.magdec p t| ≤ 360

/-- With a declination of at most a full turn, `convertMag2True` maps a
compass course in `[0, 360]` into `[0, 360]` (its single conditional wrap
suffices). -/
theorem convertMag2True_bounds (env : Env)
    (hm : ∀ p t, |env.magdec p t| ≤ 360) (pos : GeoPos) (t : ℤ) (cm : ℚ)
    (hc : 0 ≤ cm ∧ cm ≤ 360) :
    0 ≤ convertMag2True env pos t cm ∧ convertMag2True env pos t cm ≤ 360 := by
  have h := hm pos t
  rw [abs_le] at h
  unfold convertMag2True
  dsimp only
  split_ifs with h1 h2 <;> constructor <;> linarith [hc.1, hc.2, h.1, h.2]

/-- The desired true course lies in `[0, 360]` whenever the stored desired
course does. -/
theorem getDesiredCourseTrue_bounds (env : Env)
    (hm : ∀ p t, |env.magdec p t| ≤ 360) (b : Boat) (t : ℤ)
    (hdc : 0 ≤ b.desiredCourse ∧ b.desiredCourse ≤ 360) :
    0 ≤ getDesiredCourseTrue env b t ∧ getDesiredCourseTrue env b t ≤ 360 := by
  unfold getDesiredCourseTrue
  split_ifs
  · exact convertMag2True_bounds env hm b.pos t b.desiredCourse hdc
  · exact hdc

/-- The single conditional normalization step maps `[-360, 720]` into
`[0, 360]`. -/
theorem courseNormalize_bounds (x : ℚ) (h1 : -360 ≤ x) (h2 : x ≤ 720) :
    0 ≤ courseNormalize x ∧ courseNormalize x ≤ 360 := by
  unfold courseNormalize
  split_ifs with ha hb <;> constructor <;> linarith

/-- Every entry of a rational list lying in `[0, 6]` bounds every `getD`
lookup with default 0. -/
theorem getD_bounds_0_6 (l : List ℚ) (n : ℕ) (h : ∀ x ∈ l, 0 ≤ x ∧ x ≤ 6) :
    0 ≤ l.getD n 0 ∧ l.getD n 0 ≤ 6 := by
  rcases lt_or_le n l.length with hn | hn
  · rw [List.getD_eq_getElem l 0 hn]
    exact h _ (l.getElem_mem hn)
  · rw [List.getD_eq_default l 0 hn]
    norm_num

/-- Every course change rate in the table lies in `[0, 6]` (and unmodeled
types get rate 0). -/
theorem courseChangeRate_bounds (t : ℤ) :
    0 ≤ BoatWindResponse_getCourseChangeRate t ∧
    BoatWindResponse_getCourseChangeRate t ≤ 6 := by
  unfold BoatWindResponse_getCourseChangeRate
  split_ifs with h1 h2
  · norm_num
  · norm_num
  · refine getD_bounds_0_6 _ _ ?_
    intro x hx
    fin_cases hx <;> norm_num [COURSE_CHANGE_RATES]

/-- The heading after `updateCourse` lies in `[0, 360]` whenever the heading
and desired course before it do (it can be exactly 360 only via the snap
branch, which skips the normalization). -/
theorem updateCourse_angle_bounds (env : Env) (t : ℤ) (b : Boat) (seed : ℕ)
    (hm : ∀ p t, |env.magdec p t| ≤ 360)
    (hv : 0 ≤ b.v.angle ∧ b.v.angle ≤ 360)
    (hdc : 0 ≤ b.desiredCourse ∧ b.desiredCourse ≤ 360) :
    0 ≤ (updateCourse env t b seed).1.v.angle ∧
    (updateCourse env t b seed).1.v.angle ≤ 360 := by
  have hdct := getDesiredCourseTrue_bounds env hm b t hdc
  have hr := courseChangeRate_bounds b.boatType
  unfold updateCourse
  dsimp only
  split_ifs with h1 h2 h3 h4
  · exact hdct
  · exact courseNormalize_bounds
      ((b.v.angle - BoatWindResponse_getCourseChangeRate b.boatType, seed).1)
      (by show -360 ≤ b.v.angle - BoatWindResponse_getCourseChangeRate b.boatType
          linarith [hv.1, hr.2])
      (by show b.v.angle - BoatWindResponse_getCourseChangeRate b.boatType ≤ 720
          linarith [hv.2, hr.1])
  · exact courseNormalize_bounds
      ((b.v.angle + BoatWindResponse_getCourseChangeRate b.boatType, seed).1)
      (by show -360 ≤ b.v.angle + BoatWindResponse_getCourseChangeRate b.boatType
          linarith [hv.1, hr.1])
      (by show b.v.angle + BoatWindResponse_getCourseChangeRate b.boatType ≤ 720
          linarith [hv.2, hr.2])
  · exact courseNormalize_bounds
      ((b.v.angle - BoatWindResponse_getCourseChangeRate b.boatType, (env.rand seed).2).1)
      (by show -360 ≤ b.v.angle - BoatWindResponse_getCourseChangeRate b.boatType
          linarith [hv.1, hr.2])
      (by show b.v.angle - BoatWindResponse_getCourseChangeRate b.boatType ≤ 720
          linarith [hv.2, hr.1])
  · exact courseNormalize_bounds
      ((b.v.angle + BoatWindResponse_getCourseChangeRate b.boatType, (env.rand seed).2).1)
      (by show -360 ≤ b.v.angle + BoatWindResponse_getCourseChangeRate b.boatType
          linarith [hv.1, hr.1])
      (by show b.v.angle + BoatWindResponse_getCourseChangeRate b.boatType ≤ 720
          linarith [hv.2, hr.2])

/-- Under sane oracles, the damage/course/velocity section leaves the heading
in `[0, 360]`: the sails-down branch sets it to a wrapped wind bearing in
`[0, 360)`, and the main branch goes through `updateCourse`. -/
theorem advanceVelocity_angle (env : Env) (t : ℤ) (b : Boat) (seed : ℕ)
    (hs : EnvSane env)
    (hv : 0 ≤ b.v.angle ∧ b.v.angle ≤ 360)
    (hdc : 0 ≤ b.desiredCourse ∧ b.desiredCourse ≤ 360) :
    0 ≤ (Boat_advanceVelocity env t b seed).1.v.angle ∧
    (Boat_advanceVelocity env t b seed).1.v.angle ≤ 360 := by
  unfold Boat_advanceVelocity WxUtils_adjustWindForCurrent
  dsimp only
  rcases hoc : env.ocean b.pos with _ | o
  · split_ifs with h1 h2
    · rw [updateDamage_only_damage]
      have hw := hs.weather_angle b.pos
      exact ⟨by dsimp only; linarith [hw.1, hw.2, h2],
        by dsimp only; linarith [hw.1, hw.2, h2]⟩
    · rw [updateDamage_only_damage]
      have hw := hs.weather_angle b.pos
      exact ⟨by dsimp only; linarith [hw.1, hw.2],
        by dsimp only; linarith [hw.1, hw.2]⟩
    · rw [updateVelocity_eta]
      refine updateCourse_angle_bounds env t _ seed hs.magdec_bounds ?_ ?_
      · rw [updateDamage_v]; exact hv
      · rw [updateDamage_only_damage]; exact hdc
  · split_ifs with h1 h2
    · rw [updateDamage_only_damage]
      have hw := hs.vecAdd_angle (env.weather b.pos).wind o.current
      exact ⟨by dsimp only; linarith [hw.1, hw.2, h2],
        by dsimp only; linarith [hw.1, hw.2, h2]⟩
    · rw [updateDamage_only_damage]
      have hw := hs.vecAdd_angle (env.weather b.pos).wind o.current
      exact ⟨by dsimp only; linarith [hw.1, hw.2],
        by dsimp only; linarith [hw.1, hw.2]⟩
    · rw [updateVelocity_eta]
      refine updateCourse_angle_bounds env t _ seed hs.magdec_bounds ?_ ?_
      · rw [updateDamage_v]; exact hv
      · rw [updateDamage_only_damage]; exact hdc

/-- Under sane oracles, the main tick path keeps the heading and the desired
course in `[0, 360]`. -/
theorem advanceMain_inv (env : Env) (t : ℤ) (b : Boat) (seed : ℕ)
    (hs : EnvSane env)
    (hv : 0 ≤ b.v.angle ∧ b.v.angle ≤ 360)
    (hdc : 0 ≤ b.desiredCourse ∧ b.desiredCourse ≤ 360) :
    (0 ≤ (Boat_advanceMain env t b seed).1.v.angle ∧
      (Boat_advanceMain env t b seed).1.v.angle ≤ 360) ∧
    (0 ≤ (Boat_advanceMain env t b seed).1.desiredCourse ∧
      (Boat_advanceMain env t b seed).1.desiredCourse ≤ 360) := by
  have hva := advanceVelocity_angle env t b seed hs hv hdc
  have hvf := advanceVelocity_fields env t b seed
  have hdcV : 0 ≤ (Boat_advanceVelocity env t b seed).1.desiredCourse ∧
      (Boat_advanceVelocity env t b seed).1.desiredCourse ≤ 360 := by
    rw [hvf.2.1]; exact hdc
  have hmain : (Boat_advanceMain env t b seed).1 =
      Boat_advanceGround env (env.ocean b.pos) (Boat_advanceVelocity env t b seed).1 := rfl
  rw [hmain]
  rcases advanceGround_fields env (env.ocean b.pos)
      (Boat_advanceVelocity env t b seed).1 with hL | hR
  · constructor
    · rw [hL.2.1]; exact hva
    · rw [hL.2.2.1]; exact hdcV
  · constructor
    · rw [hR.2.2.1]; exact hva
    · rw [hR.2.2.2.1]; exact hdcV

/-- Under sane oracles, a full `Boat_advance` tick keeps the heading and the
desired course in `[0, 360]`. -/
theorem advance_inv (env : Env) (t : ℤ) (b : Boat) (seed : ℕ)
    (hs : EnvSane env)
    (hv : 0 ≤ b.v.angle ∧ b.v.angle ≤ 360)
    (hdc : 0 ≤ b.desiredCourse ∧ b.desiredCourse ≤ 360) :
    (0 ≤ (Boat_advance env t b seed).1.v.angle ∧
      (Boat_advance env t b seed).1.v.angle ≤ 360) ∧
    (0 ≤ (Boat_advance env t b seed).1.desiredCourse ∧
      (Boat_advance env t b seed).1.desiredCourse ≤ 360) := by
  unfold Boat_advance
  dsimp only
  split_ifs with hstop hdmg hpolar hmts hwater himm hhead
  · rw [updateDamage_only_damage]
    exact ⟨hv, hdc⟩
  · exact ⟨hv, hdc⟩
  · exact ⟨hv, hdc⟩
  · exact advanceMain_inv env t _ seed hs
      (getDesiredCourseTrue_bounds env hs.magdec_bounds _ t hdc) hdc
  · exact advanceMain_inv env t _ seed hs hv hdc
  · exact ⟨getDesiredCourseTrue_bounds env hs.magdec_bounds _ t hdc, hdc⟩
  · exact ⟨hv, hdc⟩
  · exact advanceMain_inv env t b seed hs hv hdc

/-- Under sane oracles, every reachable vessel state has its heading and its
desired course in `[0, 360]`. -/
theorem reachable_heading_bounds (env : Env) (hs : EnvSane env) (b : Boat)
    (h : BoatReachable env b) :
    (0 ≤ b.v.angle ∧ b.v.angle ≤ 360) ∧
    (0 ≤ b.desiredCourse ∧ b.desiredCourse ≤ 360) := by
  induction h with
  | init lat lon boatType flags hlat hlon htype hflags =>
      exact ⟨⟨le_refl 0, by show (0:ℚ) ≤ 360; norm_num⟩,
        ⟨le_refl 0, by show (0:ℚ) ≤ 360; norm_num⟩⟩
  | step b b' hr hstep ih =>
      cases hstep with
      | advance t seed b => exact advance_inv env t b seed hs ih.1 ih.2
      | cmdStop b => exact ih
      | cmdStart t b hW => exact ih
      | cmdCourse b course mag hc =>
          refine ⟨ih.1, ?_, ?_⟩
          · show (0 : ℚ) ≤ (course : ℚ)
            exact_mod_cast hc.1
          · show ((course : ℚ) : ℚ) ≤ 360
            exact_mod_cast hc.2

/-- C10 (amended): under sane geodesy/weather oracles, every vessel state
reachable through the command pipeline (course values 0..360 inclusive) and
any number of ticks has its water-velocity bearing in the closed interval
`[0, 360]`; the bearing can equal 360 exactly, because the snap branch of
`updateCourse` returns before the normalization step, so `[0, 360)` of the
original claim fails. -/
theorem C10_reachable_heading_bounded (env : Env) (hs : EnvSane env)
    (b : Boat) (h : BoatReachable env b) :
    0 ≤ b.v.angle ∧ b.v.angle ≤ 360 :=
  (reachable_heading_bounds env hs b h).1

/-- Environment for the C10 counterexample: all water, calm wind, no ocean
or wave data, vector sums collapsing to the zero vector (bearing 0), and the
compass difference wrapped into `(-180, 180]` — all oracle sanity conditions
hold. -/
def C10env : Env :=
  { calmEnv with
    vecAdd := fun _ _ => ⟨0, 0⟩
    compassDiff := fun h c =>
      if c - h > 180 then c - h - 360
      else if c - h ≤ -180 then c - h + 360
      else c - h }

/-- The C10 counterexample vessel after the course-360 command. -/
def C10b1 : Boat :=
  { Boat_new 0 0 0 0 with desiredCourse := ((360 : ℤ) : ℚ), courseMagnetic := false }

/-- The C10 counterexample vessel after the start command. -/
def C10b2 : Boat :=
  { C10b1 with stop := false, sailsDown := false, movingToSea := true }

/-- The C10 counterexample vessel after one tick. -/
def C10bad : Boat := (Boat_advance C10env 0 C10b2 0).1

/-- C10 counterexample: the parser accepts course 360, and the tick's course
snap assigns the desired true course to the heading without normalizing, so
a reachable state (in a fully sane environment) carries heading exactly 360,
outside `[0, 360)`. -/
theorem C10_counterexample_heading_reaches_360 :
    EnvSane C10env ∧ BoatReachable C10env C10bad ∧ C10bad.v.angle = 360 := by
  refine ⟨⟨fun p => by norm_num [C10env, calmEnv],
      fun v w => by norm_num [C10env, calmEnv],
      fun p t => by norm_num [C10env, calmEnv]⟩, ?_, ?_⟩
  · have hW : Boat_isHeadingTowardWater C10env 0 C10b1 = true := rfl
    exact BoatReachable.step _ _
      (BoatReachable.step _ _
        (BoatReachable.step _ _
          (BoatReachable.init 0 0 0 0 (by norm_num) (by norm_num)
            (by decide) (by decide))
          (BoatStep.cmdCourse _ 360 false (by norm_num)))
        (BoatStep.cmdStart 0 _ hW))
      (BoatStep.advance 0 0 C10b2)
  · have hgbs : BoatWindResponse_getBoatSpeed (0:ℚ) 0 0 = 0 := by
      unfold BoatWindResponse_getBoatSpeed
      norm_num
    norm_num [C10bad, C10b2, C10b1, Boat_advance, Boat_advanceMain,
      Boat_advanceVelocity, Boat_advanceGround, Boat_advanceMove, updateDamage,
      updateCourse, updateVelocity, getDesiredCourseTrue, hgbs,
      BoatWindResponse_getCourseChangeRate, BoatWindResponse_getSpeedChangeResponse,
      COURSE_CHANGE_RATES, BOAT_INERTIAS, BOAT_TYPE_MAX, courseNormalize,
      oceanIceSpeedAdjustmentFactor, waveSpeedAdjustmentFactor,
      C10env, calmEnv, Boat_new, FORBIDDEN_LAT]

/-- A sane concrete environment for the C10 witness. -/
def saneEnv : Env := { calmEnv with vecAdd := fun _ _ => ⟨0, 0⟩ }

/-- Witness for the amended C10 theorem: applied to a freshly created vessel
in a sane environment. -/
theorem C10_witness :
    0 ≤ (Boat_new 0 0 0 (0 : ℤ).toNat).v.angle ∧
    (Boat_new 0 0 0 (0 : ℤ).toNat).v.angle ≤ 360 :=
  C10_reachable_heading_bounded saneEnv
    ⟨fun p => by norm_num [saneEnv, calmEnv],
     fun v w => by norm_num [saneEnv, calmEnv],
     fun p t => by norm_num [saneEnv, calmEnv]⟩
    _ (BoatReachable.init 0 0 0 0 (by norm_num) (by norm_num)
        (by decide) (by decide))

end SailNavSim
